import Mathlib

/-!
Verification development for the configuration loader of this repository
(src/config.go).  The Go source is shallowly embedded: structs become Lean
structures, Go maps become association lists (`List (String × _)`), an
iteration over a Go map corresponds to walking such a list in some order,
and fallible code returns `Except String _` or a `(Option config,
Option String)` pair mirroring Go's `(*config, error)` return value.

External libraries used by the source (Go's `net` package, `yaml.v2`
strict unmarshalling, `go-playground/validator`, `creasty/defaults`) are
not part of the repository; they are modelled from their documented
behaviour on the declared schema, as noted on each definition.
-/

/-! ## Model of Go's net package (net.ParseIP, net.ParseCIDR, IP.To4)

An IP address is its byte list: length 4 for a dotted-quad parse, length
16 for an IPv6 parse, mirroring `net.IP []byte`. -/

/-- Splits a character list on every occurrence of `c` (like Go's strings.Split). -/
def splitOnChar (c : Char) : List Char → List (List Char)
  | [] => [[]]
  | x :: xs =>
    if x = c then [] :: splitOnChar c xs
    else match splitOnChar c xs with
      | [] => [[x]]
      | g :: gs => (x :: g) :: gs

/-- Splits at the first occurrence of `c`, if any. -/
def splitFirst (c : Char) : List Char → Option (List Char × List Char)
  | [] => none
  | x :: xs =>
    if x = c then some ([], xs)
    else match splitFirst c xs with
      | some (l, r) => some (x :: l, r)
      | none => none

/-- Value of a run of decimal digits; none if empty or a non-digit occurs. -/
def decNum (cs : List Char) : Option Nat :=
  if cs = [] then none
  else if cs.all Char.isDigit then some (cs.foldl (fun a c => a * 10 + (c.toNat - 48)) 0)
  else none

/-- One dotted-quad field: up to three digits, value at most 255. -/
def v4Field (cs : List Char) : Option Nat :=
  if cs.length ≤ 3 then
    match decNum cs with
    | some n => if n ≤ 255 then some n else none
    | none => none
  else none

/-- Modelled from Go's net package: parse a dotted-quad IPv4 address into
its four bytes. -/
def parseIPv4 (cs : List Char) : Option (List Nat) :=
  match splitOnChar '.' cs with
  | [a, b, c, d] =>
    match v4Field a, v4Field b, v4Field c, v4Field d with
    | some x, some y, some z, some w => some [x, y, z, w]
    | _, _, _, _ => none
  | _ => none

/-- Value of one hexadecimal digit. -/
def hexVal (c : Char) : Option Nat :=
  if c.isDigit then some (c.toNat - 48)
  else if 'a' ≤ c ∧ c ≤ 'f' then some (c.toNat - 87)
  else if 'A' ≤ c ∧ c ≤ 'F' then some (c.toNat - 55)
  else none

/-- One IPv6 group: one to four hex digits, as a 16-bit value. -/
def parseHexGroup (cs : List Char) : Option Nat :=
  if cs = [] then none
  else if cs.length ≤ 4 then
    cs.foldl (fun acc c =>
      match acc, hexVal c with
      | some a, some h => some (a * 16 + h)
      | _, _ => none) (some 0)
  else none

/-- Byte list of a run of IPv6 groups; an embedded dotted quad is allowed
as the final group only. -/
def groupBytes : List (List Char) → Option (List Nat)
  | [] => some []
  | g :: rest =>
    if g.contains '.' then
      match rest, parseIPv4 g with
      | [], some bs => some bs
      | _, _ => none
    else
      match parseHexGroup g, groupBytes rest with
      | some n, some bs => some ([n / 256, n % 256] ++ bs)
      | _, _ => none

/-- Splits the colon-separated parts of an IPv6 address at its `::`
ellipsis: the parts before and after it, `none` when the ellipsis is
absent or malformed (the caller handles the no-ellipsis case). -/
def splitAtEmpty : List (List Char) → Option (List (List Char) × List (List Char))
  | [] => none
  | g :: rest =>
    if g = [] then some ([], rest)
    else match splitAtEmpty rest with
      | some (l, r) => some (g :: l, r)
      | none => none

/-- The two sides of the `::` ellipsis of an IPv6 part list, handling the
leading (`::x`), trailing (`x::`), lone (`::`) and interior (`x::y`)
shapes; `none` when the colons do not form a well-placed ellipsis. -/
def emptySplit (parts : List (List Char)) : Option (List (List Char) × List (List Char)) :=
  if parts = [[], [], []] then some ([], [])
  else
    match parts with
    | [] :: [] :: rest =>
      if rest.contains [] then none
      else if rest = [] then none
      else some ([], rest)
    | _ =>
      match parts.reverse with
      | [] :: [] :: revInit =>
        let ini := revInit.reverse
        if ini.contains [] then none
        else if ini = [] then none
        else some (ini, [])
      | _ =>
        match splitAtEmpty parts with
        | some (l, r) =>
          if l = [] then none
          else if r = [] then none
          else if r.contains [] then none
          else some (l, r)
        | none => none

/-- Modelled from Go's net package: parse an IPv6 address into its sixteen
bytes, expanding a `::` ellipsis with zero bytes. -/
def parseIPv6 (cs : List Char) : Option (List Nat) :=
  let parts := splitOnChar ':' cs
  if parts.contains [] then
    match emptySplit parts with
    | none => none
    | some (l, r) =>
      match groupBytes l, groupBytes r with
      | some lb, some rb =>
        if lb.length + rb.length ≤ 14 then
          some (lb ++ List.replicate (16 - lb.length - rb.length) 0 ++ rb)
        else none
      | _, _ => none
  else
    match groupBytes parts with
    | some bs => if bs.length = 16 then some bs else none
    | none => none

/-- The first address separator (`.` or `:`) decides the family, as in
Go's ParseIP. -/
def firstSep : List Char → Option Char
  | [] => none
  | c :: cs => if c = '.' then some '.' else if c = ':' then some ':' else firstSep cs

/-- Modelled from Go's net.ParseIP: dotted quad or IPv6, by first separator. -/
def parseIPChars (cs : List Char) : Option (List Nat) :=
  match firstSep cs with
  | some '.' => parseIPv4 cs
  | some _ => parseIPv6 cs
  | none => none

/-- Modelled from Go's net.ParseIP on a string. -/
def parseIP (s : String) : Option (List Nat) := parseIPChars s.data

/-- Modelled from Go's net.ParseCIDR: address, slash, decimal mask not
exceeding the family's bit length.  Only the address part is returned,
since the source uses only the `ip` result of ParseCIDR. -/
def parseCIDRChars (cs : List Char) : Option (List Nat) :=
  match splitFirst '/' cs with
  | none => none
  | some (addr, mask) =>
    match parseIPChars addr with
    | none => none
    | some ip =>
      match decNum mask with
      | none => none
      | some m => if m ≤ (if ip.length = 4 then 32 else 128) then some ip else none

/-- Modelled from Go's net.ParseCIDR on a string. -/
def parseCIDR (s : String) : Option (List Nat) := parseCIDRChars s.data

/-- Modelled from Go's IP.To4: the 4-byte form of an address, `none` when
the address is not representable as IPv4 (length 4, or length 16 with the
IPv4-in-IPv6 preamble 0…0 ff ff). -/
def ipTo4 (ip : List Nat) : Option (List Nat) :=
  if ip.length = 4 then some ip
  else if ip.length = 16 && (ip.take 10).all (fun b => b == 0)
      && ip.get? 10 == some 255 && ip.get? 11 == some 255 then
    some (ip.drop 12)
  else none

/-- A CIDR string whose parsed address is representable as IPv4
(`pfx.To4() != nil` in the source). -/
def isIPv4Pfx (s : String) : Bool :=
  match parseCIDR s with
  | some ip => (ipTo4 ip).isSome
  | none => false

/-! ## The configuration schema (src/config.go lines 24–153)

Go structs become structures with the same field names and order.  Go
maps become association lists; `map[string]string` derived maps that Go
leaves nil until the normalizer initializes them (`Statics4`,
`Statics6`) become `Option` of an association list, `none` standing for
the nil map.  Unsigned integers become `Nat`, `int` becomes `Int`. -/

/-- The `peer` struct (src/config.go lines 24–83). -/
structure peer where
  Description : String
  Disabled : Bool
  ASN : Nat
  NeighborIPs : List String
  Prepends : Nat
  LocalPref : Nat
  Multihop : Bool
  Listen : String
  LocalPort : Nat
  NeighborPort : Nat
  Passive : Bool
  NextHopSelf : Bool
  BFD : Bool
  Communities : List String
  LargeCommunities : List String
  Password : String
  RSClient : Bool
  RRClient : Bool
  RemovePrivateASNs : Bool
  MPUnicast46 : Bool
  ASSet : String
  ImportLimit4 : Nat
  ImportLimit6 : Nat
  EnforceFirstAS : Bool
  EnforcePeerNexthop : Bool
  MaxPrefixTripAction : String
  AllowBlackholeCommunity : Bool
  FilterIRR : Bool
  FilterRPKI : Bool
  FilterMaxPrefix : Bool
  FilterBogons : Bool
  FilterTier1ASNs : Bool
  AutoImportLimits : Bool
  AutoASSet : Bool
  Prefixes : List String
  AnnounceDefault : Bool
  AnnounceSpecifics : Bool
  SessionGlobal : String
  PreImport : String
  PreExport : String
  PreImportFinal : String
  PreExportFinal : String
  ProtocolName : String
  Protocols : List String
  PrefixSet4 : List String
  PrefixSet6 : List String
deriving Repr, DecidableEq

/-- The `vrrpInstance` struct (src/config.go lines 85–94). -/
structure vrrpInstance where
  State : String
  Interface : String
  VRID : Nat
  Priority : Nat
  VIPs : List String
  VIPs4 : List String
  VIPs6 : List String
deriving Repr, DecidableEq

/-- The `augments` struct (src/config.go lines 96–105).  `Statics4` and
`Statics6` are nil Go maps until loadConfig initializes them, hence
`Option`. -/
structure augments where
  Accept4 : List String
  Accept6 : List String
  Reject4 : List String
  Reject6 : List String
  Statics : List (String × String)
  Statics4 : Option (List (String × String))
  Statics6 : Option (List (String × String))
deriving Repr, DecidableEq

/-- The `iface` struct (src/config.go lines 141–147). -/
structure iface where
  Mtu : Nat
  XDPRTR : Bool
  Addresses : List String
  Dummy : Bool
  Down : Bool
deriving Repr, DecidableEq

/-- The `config` struct (src/config.go lines 107–138). -/
structure config where
  ASN : Nat
  Prefixes : List String
  Communities : List String
  LargeCommunities : List String
  RouterID : String
  IRRServer : String
  RTRServer : String
  RTRPort : Int
  KeepFiltered : Bool
  MergePaths : Bool
  Source4 : String
  Source6 : String
  AcceptDefault : Bool
  BirdDirectory : String
  BirdSocket : String
  KeepalivedConfig : String
  WebUIFile : String
  PeeringDbQueryTimeout : Nat
  IRRQueryTimeout : Nat
  Peers : List (String × peer)
  Interfaces : List (String × iface)
  VRRPInstances : List vrrpInstance
  Augments : augments
  Prefixes4 : List String
  Prefixes6 : List String
deriving Repr, DecidableEq

/-- Go map lookup on an association list (unique keys in every list that
models a Go map). -/
def listLookup : List (String × α) → String → Option α
  | [], _ => none
  | (k, v) :: rest, key => if k = key then some v else listLookup rest key

/-! ## Schema metadata (the struct tags of src/config.go)

The reflective Documenter walks struct tags; the embedding records each
field's tag values in declaration order. -/

/-- One struct field's tag data: Go field name, `yaml` key, rendered type,
`default` tag, `validate` tag and `description` tag. -/
structure FieldMeta where
  fname : String
  key : String
  tyStr : String
  dflt : String
  vald : String
  descr : String
deriving Repr, DecidableEq

/-- Tag table of the `config` struct, in declaration order
(src/config.go lines 107–138). -/
def configFields : List FieldMeta := [
  ⟨"ASN", "asn", "uint", "", "required", "Autonomous System Number"⟩,
  ⟨"Prefixes", "prefixes", "[]string", "", "", "List of prefixes to announce"⟩,
  ⟨"Communities", "communities", "[]string", "", "", "List of RFC1997 BGP communities"⟩,
  ⟨"LargeCommunities", "large-communities", "[]string", "", "", "List of RFC8092 large BGP communities"⟩,
  ⟨"RouterID", "router-id", "string", "", "required", "Router ID (dotted quad notation)"⟩,
  ⟨"IRRServer", "irr-server", "string", "rr.ntt.net", "", "Internet routing registry server"⟩,
  ⟨"RTRServer", "rtr-server", "string", "rtr.rpki.cloudflare.com", "", "RPKI-to-router server"⟩,
  ⟨"RTRPort", "rtr-port", "int", "8282", "", "RPKI-to-router port"⟩,
  ⟨"KeepFiltered", "keep-filtered", "bool", "false", "", "Should filtered routes be kept in memory?"⟩,
  ⟨"MergePaths", "merge-paths", "bool", "false", "", "Should best and equivalent non-best routes be imported for ECMP?"⟩,
  ⟨"Source4", "source4", "string", "", "", "Source IPv4 address"⟩,
  ⟨"Source6", "source6", "string", "", "", "Source IPv6 address"⟩,
  ⟨"AcceptDefault", "accept-default", "bool", "false", "", "Should default routes be added to the bogon list?"⟩,
  ⟨"BirdDirectory", "bird-directory", "string", "/etc/bird/", "", "Directory to store BIRD configs"⟩,
  ⟨"BirdSocket", "bird-socket", "string", "/run/bird/bird.ctl", "", "UNIX control socket for BIRD"⟩,
  ⟨"KeepalivedConfig", "keepalived-config", "string", "/etc/keepalived.conf", "", "Configuration file for keepalived"⟩,
  ⟨"WebUIFile", "web-ui-file", "string", "/run/wireframe.html", "", "File to write web UI to"⟩,
  ⟨"PeeringDbQueryTimeout", "peeringdb-query-timeout", "uint", "10", "", "PeeringDB query timeout in seconds"⟩,
  ⟨"IRRQueryTimeout", "irr-query-timeout", "uint", "30", "", "IRR query timeout in seconds"⟩,
  ⟨"Peers", "peers", "map[string]*peer", "", "", "BGP peer configuration"⟩,
  ⟨"Interfaces", "interfaces", "map[string]iface", "", "", "Network interface configuration"⟩,
  ⟨"VRRPInstances", "vrrp", "[]vrrpInstance", "", "", "List of VRRP instances"⟩,
  ⟨"Augments", "augments", "augments", "", "", "Custom configuration options"⟩,
  ⟨"Prefixes4", "-", "[]string", "", "", "-"⟩,
  ⟨"Prefixes6", "-", "[]string", "", "", "-"⟩]

/-- The yaml keys the strict unmarshaller accepts at the top level:
every declared field's wire key except the `yaml:"-"` derived fields. -/
def configKeys : List String :=
  ((configFields.map (fun f => f.key)).filter (fun k => k ≠ "-"))

/-- The yaml keys of the `peer` struct, in declaration order
(src/config.go lines 24–83), excluding the `yaml:"-"` derived fields. -/
def peerKeys : List String :=
  ["description", "disabled", "asn", "neighbors", "prepends", "local-pref",
   "multihop", "listen", "local-port", "neighbor-port", "passive",
   "next-hop-self", "bfd", "communities", "large-communities", "password",
   "rs-client", "rr-client", "remove-private-as", "mp-unicast-46", "as-set",
   "import-limit4", "import-limit6", "enforce-first-as",
   "enforce-peer-nexthop", "max-prefix-action", "allow-blackhole-community",
   "filter-irr", "filter-rpki", "filter-max-prefix", "filter-bogons",
   "filter-tier1-asns", "auto-import-limits", "auto-as-set", "prefixes",
   "announce-default", "announce-specifics", "session-global", "pre-import",
   "pre-export", "pre-import-final", "pre-export-final"]

/-- The yaml keys of the `vrrpInstance` struct (src/config.go lines 85–94). -/
def vrrpKeys : List String := ["state", "interface", "vrid", "priority", "vips"]

/-- The yaml keys of the `iface` struct (src/config.go lines 141–147). -/
def ifaceKeys : List String := ["mtu", "xdprtr", "addresses", "dummy", "down"]

/-- The yaml keys of the `augments` struct (src/config.go lines 96–105). -/
def augmentsKeys : List String :=
  ["accept4", "accept6", "reject4", "reject6", "statics"]

/-! ## The Documenter (src/config.go lines 257–297)

`documentConfigTypes` renders one markdown table per entity type.  The
embedding covers the row emission for one type: per field it reads the
tags, wraps a non-empty default in backticks, aborts (log.Fatalf) on an
empty description and skips a field whose description is `-`. -/

/-- One emitted table row: the cell values of
`Option | Type | Default | Validation | Description`. -/
structure Row where
  key : String
  tyStr : String
  dflt : String
  vald : String
  descr : String
deriving Repr, DecidableEq

/-- The row printed for one field (src/config.go line 286, with the
backtick-wrapped default of lines 271–274). -/
def mkRow (f : FieldMeta) : Row :=
  { key := f.key, tyStr := f.tyStr,
    dflt := if f.dflt = "" then "" else "`" ++ f.dflt ++ "`",
    vald := f.vald, descr := f.descr }

/-- The rows of one entity type's table (src/config.go lines 266–288):
field-declaration order, a fatal error (modelled as `.error`) for an
empty description, no row when the description is the sentinel `-`. -/
def documentRows : List FieldMeta → Except String (List Row)
  | [] => .ok []
  | f :: rest =>
    if f.descr = "" then .error ("code error: " ++ f.fname ++ " does not have a description")
    else if f.descr = "-" then documentRows rest
    else
      match documentRows rest with
      | .error e => .error e
      | .ok rows => .ok (mkRow f :: rows)

/-- First-column (Option) cell values of an emitted table. -/
def rowKeys (r : Except String (List Row)) : Option (List String) :=
  match r with
  | .ok rows => some (rows.map (fun x => x.key))
  | .error _ => none

/-! ## Model of the input document and of yaml.v2 UnmarshalStrict

The document arrives at `loadConfig` as a byte buffer; the YAML text
layer is external, so the input is modelled as an already-shaped tree of
values whose top level is a key–value list.  `UnmarshalStrict` is not
part of the repository: it is modelled from the spec — any key present
in the input that has no corresponding declared field is a hard error,
as is a value of the wrong shape for its field's declared type, and an
omitted field leaves the Go zero value. -/

/-- A structured document value: scalar string, number, boolean, list of
strings, mapping of strings, or a nested object (key–value list).  A
sequence of objects (the `vrrp` list) is `seq`. -/
inductive YVal where
  | str (s : String)
  | num (n : Int)
  | bool (b : Bool)
  | strList (l : List String)
  | strMap (l : List (String × String))
  | seq (l : List YVal)
  | obj (l : List (String × YVal))

/-- The object payload of a value, empty for non-objects. -/
def asObj : YVal → List (String × YVal)
  | .obj l => l
  | _ => []

def isStrV : YVal → Bool | .str _ => true | _ => false

def isBoolV : YVal → Bool | .bool _ => true | _ => false

def isUintV : YVal → Bool | .num n => 0 ≤ n | _ => false

def isUintBoundedV (bound : Nat) : YVal → Bool
  | .num n => 0 ≤ n ∧ n ≤ (bound : Int)
  | _ => false

def isIntV : YVal → Bool | .num _ => true | _ => false

def isStrListV : YVal → Bool | .strList _ => true | _ => false

def isStrMapV : YVal → Bool | .strMap _ => true | _ => false

/-! ### Strict shape check

Per object level, every present key must be a declared wire key and its
value must have the declared field's shape; an unknown key fails the
check (strictness), as does an ill-shaped value (a yaml TypeError). -/

/-- Shape of one `peer` field's value, by wire key; `false` for a key
that is not declared (strict rejection of unknown keys). -/
def peerFieldOk (k : String) (v : YVal) : Bool :=
  peerKeys.contains k &&
  (if k = "description" then isStrV v
   else if k = "disabled" then isBoolV v
   else if k = "asn" then isUintV v
   else if k = "neighbors" then isStrListV v
   else if k = "prepends" then isUintV v
   else if k = "local-pref" then isUintV v
   else if k = "multihop" then isBoolV v
   else if k = "listen" then isStrV v
   else if k = "local-port" then isUintBoundedV 65535 v
   else if k = "neighbor-port" then isUintBoundedV 65535 v
   else if k = "passive" then isBoolV v
   else if k = "next-hop-self" then isBoolV v
   else if k = "bfd" then isBoolV v
   else if k = "communities" then isStrListV v
   else if k = "large-communities" then isStrListV v
   else if k = "password" then isStrV v
   else if k = "rs-client" then isBoolV v
   else if k = "rr-client" then isBoolV v
   else if k = "remove-private-as" then isBoolV v
   else if k = "mp-unicast-46" then isBoolV v
   else if k = "as-set" then isStrV v
   else if k = "import-limit4" then isUintV v
   else if k = "import-limit6" then isUintV v
   else if k = "enforce-first-as" then isBoolV v
   else if k = "enforce-peer-nexthop" then isBoolV v
   else if k = "max-prefix-action" then isStrV v
   else if k = "allow-blackhole-community" then isBoolV v
   else if k = "filter-irr" then isBoolV v
   else if k = "filter-rpki" then isBoolV v
   else if k = "filter-max-prefix" then isBoolV v
   else if k = "filter-bogons" then isBoolV v
   else if k = "filter-tier1-asns" then isBoolV v
   else if k = "auto-import-limits" then isBoolV v
   else if k = "auto-as-set" then isBoolV v
   else if k = "prefixes" then isStrListV v
   else if k = "announce-default" then isBoolV v
   else if k = "announce-specifics" then isBoolV v
   else isStrV v)  -- the remaining five declared keys are free-text strings

/-- All keys of a peer object are declared and well-shaped. -/
def peerObjOk (l : List (String × YVal)) : Bool :=
  l.all (fun kv => peerFieldOk kv.1 kv.2)

/-- The `peers` mapping: every value is a well-formed peer object. -/
def peersValOk : YVal → Bool
  | .obj l => l.all (fun kv => match kv.2 with
      | .obj pl => peerObjOk pl
      | _ => false)
  | _ => false

/-- Shape of one `iface` field's value, by wire key. -/
def ifaceFieldOk (k : String) (v : YVal) : Bool :=
  ifaceKeys.contains k &&
  (if k = "mtu" then isUintV v
   else if k = "xdprtr" then isBoolV v
   else if k = "addresses" then isStrListV v
   else isBoolV v)  -- dummy, down

def ifaceObjOk (l : List (String × YVal)) : Bool :=
  l.all (fun kv => ifaceFieldOk kv.1 kv.2)

/-- The `interfaces` mapping: every value is a well-formed iface object. -/
def ifacesValOk : YVal → Bool
  | .obj l => l.all (fun kv => match kv.2 with
      | .obj il => ifaceObjOk il
      | _ => false)
  | _ => false

/-- Shape of one `vrrpInstance` field's value, by wire key. -/
def vrrpFieldOk (k : String) (v : YVal) : Bool :=
  vrrpKeys.contains k &&
  (if k = "state" then isStrV v
   else if k = "interface" then isStrV v
   else if k = "vrid" then isUintV v
   else if k = "priority" then isUintBoundedV 255 v
   else isStrListV v)  -- vips

def vrrpObjOk (l : List (String × YVal)) : Bool :=
  l.all (fun kv => vrrpFieldOk kv.1 kv.2)

/-- The `vrrp` sequence: every element is a well-formed instance object. -/
def vrrpValOk : YVal → Bool
  | .seq items => items.all (fun it => match it with
      | .obj il => vrrpObjOk il
      | _ => false)
  | _ => false

/-- Shape of one `augments` field's value, by wire key. -/
def augmentsFieldOk (k : String) (v : YVal) : Bool :=
  augmentsKeys.contains k &&
  (if k = "statics" then isStrMapV v else isStrListV v)

def augmentsObjOk (l : List (String × YVal)) : Bool :=
  l.all (fun kv => augmentsFieldOk kv.1 kv.2)

def augmentsValOk : YVal → Bool
  | .obj l => augmentsObjOk l
  | _ => false

/-- Shape of one top-level `config` field's value, by wire key; `false`
for an unknown key. -/
def configFieldOk (k : String) (v : YVal) : Bool :=
  configKeys.contains k &&
  (if k = "asn" then isUintV v
   else if k = "prefixes" then isStrListV v
   else if k = "communities" then isStrListV v
   else if k = "large-communities" then isStrListV v
   else if k = "router-id" then isStrV v
   else if k = "irr-server" then isStrV v
   else if k = "rtr-server" then isStrV v
   else if k = "rtr-port" then isIntV v
   else if k = "keep-filtered" then isBoolV v
   else if k = "merge-paths" then isBoolV v
   else if k = "source4" then isStrV v
   else if k = "source6" then isStrV v
   else if k = "accept-default" then isBoolV v
   else if k = "bird-directory" then isStrV v
   else if k = "bird-socket" then isStrV v
   else if k = "keepalived-config" then isStrV v
   else if k = "web-ui-file" then isStrV v
   else if k = "peeringdb-query-timeout" then isUintV v
   else if k = "irr-query-timeout" then isUintV v
   else if k = "peers" then peersValOk v
   else if k = "interfaces" then ifacesValOk v
   else if k = "vrrp" then vrrpValOk v
   else augmentsValOk v)  -- "augments"

/-- The whole document deserializes strictly: all top-level keys are
declared and every value, recursively, is well-shaped. -/
def docOk (l : List (String × YVal)) : Bool :=
  l.all (fun kv => configFieldOk kv.1 kv.2)

/-! ### Field extraction (the Go zero value when a key is absent) -/

def getStr (l : List (String × YVal)) (k : String) : String :=
  match listLookup l k with
  | some (.str s) => s
  | _ => ""

def getUint (l : List (String × YVal)) (k : String) : Nat :=
  match listLookup l k with
  | some (.num n) => n.toNat
  | _ => 0

def getInt (l : List (String × YVal)) (k : String) : Int :=
  match listLookup l k with
  | some (.num n) => n
  | _ => 0

def getBool (l : List (String × YVal)) (k : String) : Bool :=
  match listLookup l k with
  | some (.bool b) => b
  | _ => false

def getStrList (l : List (String × YVal)) (k : String) : List String :=
  match listLookup l k with
  | some (.strList xs) => xs
  | _ => []

def getStrMap (l : List (String × YVal)) (k : String) : List (String × String) :=
  match listLookup l k with
  | some (.strMap xs) => xs
  | _ => []

/-- The peer a well-shaped peer object deserializes to; the `yaml:"-"`
fields stay at their zero values (nil slices and empty strings). -/
def mkPeer (l : List (String × YVal)) : peer :=
  { Description := getStr l "description"
    Disabled := getBool l "disabled"
    ASN := getUint l "asn"
    NeighborIPs := getStrList l "neighbors"
    Prepends := getUint l "prepends"
    LocalPref := getUint l "local-pref"
    Multihop := getBool l "multihop"
    Listen := getStr l "listen"
    LocalPort := getUint l "local-port"
    NeighborPort := getUint l "neighbor-port"
    Passive := getBool l "passive"
    NextHopSelf := getBool l "next-hop-self"
    BFD := getBool l "bfd"
    Communities := getStrList l "communities"
    LargeCommunities := getStrList l "large-communities"
    Password := getStr l "password"
    RSClient := getBool l "rs-client"
    RRClient := getBool l "rr-client"
    RemovePrivateASNs := getBool l "remove-private-as"
    MPUnicast46 := getBool l "mp-unicast-46"
    ASSet := getStr l "as-set"
    ImportLimit4 := getUint l "import-limit4"
    ImportLimit6 := getUint l "import-limit6"
    EnforceFirstAS := getBool l "enforce-first-as"
    EnforcePeerNexthop := getBool l "enforce-peer-nexthop"
    MaxPrefixTripAction := getStr l "max-prefix-action"
    AllowBlackholeCommunity := getBool l "allow-blackhole-community"
    FilterIRR := getBool l "filter-irr"
    FilterRPKI := getBool l "filter-rpki"
    FilterMaxPrefix := getBool l "filter-max-prefix"
    FilterBogons := getBool l "filter-bogons"
    FilterTier1ASNs := getBool l "filter-tier1-asns"
    AutoImportLimits := getBool l "auto-import-limits"
    AutoASSet := getBool l "auto-as-set"
    Prefixes := getStrList l "prefixes"
    AnnounceDefault := getBool l "announce-default"
    AnnounceSpecifics := getBool l "announce-specifics"
    SessionGlobal := getStr l "session-global"
    PreImport := getStr l "pre-import"
    PreExport := getStr l "pre-export"
    PreImportFinal := getStr l "pre-import-final"
    PreExportFinal := getStr l "pre-export-final"
    ProtocolName := ""
    Protocols := []
    PrefixSet4 := []
    PrefixSet6 := [] }

/-- The iface a well-shaped iface object deserializes to. -/
def mkIface (l : List (String × YVal)) : iface :=
  { Mtu := getUint l "mtu"
    XDPRTR := getBool l "xdprtr"
    Addresses := getStrList l "addresses"
    Dummy := getBool l "dummy"
    Down := getBool l "down" }

/-- The vrrpInstance a well-shaped instance object deserializes to; the
derived `VIPs4`/`VIPs6` stay nil. -/
def mkVrrp (l : List (String × YVal)) : vrrpInstance :=
  { State := getStr l "state"
    Interface := getStr l "interface"
    VRID := getUint l "vrid"
    Priority := getUint l "priority"
    VIPs := getStrList l "vips"
    VIPs4 := []
    VIPs6 := [] }

/-- The augments block a well-shaped augments object deserializes to;
`Statics4`/`Statics6` are `yaml:"-"` and stay nil maps. -/
def mkAugments (l : List (String × YVal)) : augments :=
  { Accept4 := getStrList l "accept4"
    Accept6 := getStrList l "accept6"
    Reject4 := getStrList l "reject4"
    Reject6 := getStrList l "reject6"
    Statics := getStrMap l "statics"
    Statics4 := none
    Statics6 := none }

/-- The config a well-shaped document deserializes to; all derived
fields stay at their zero values. -/
def mkConfig (l : List (String × YVal)) : config :=
  { ASN := getUint l "asn"
    Prefixes := getStrList l "prefixes"
    Communities := getStrList l "communities"
    LargeCommunities := getStrList l "large-communities"
    RouterID := getStr l "router-id"
    IRRServer := getStr l "irr-server"
    RTRServer := getStr l "rtr-server"
    RTRPort := getInt l "rtr-port"
    KeepFiltered := getBool l "keep-filtered"
    MergePaths := getBool l "merge-paths"
    Source4 := getStr l "source4"
    Source6 := getStr l "source6"
    AcceptDefault := getBool l "accept-default"
    BirdDirectory := getStr l "bird-directory"
    BirdSocket := getStr l "bird-socket"
    KeepalivedConfig := getStr l "keepalived-config"
    WebUIFile := getStr l "web-ui-file"
    PeeringDbQueryTimeout := getUint l "peeringdb-query-timeout"
    IRRQueryTimeout := getUint l "irr-query-timeout"
    Peers := (asObj ((listLookup l "peers").getD (.obj []))).map
      (fun kv => (kv.1, mkPeer (asObj kv.2)))
    Interfaces := (asObj ((listLookup l "interfaces").getD (.obj []))).map
      (fun kv => (kv.1, mkIface (asObj kv.2)))
    VRRPInstances := (match listLookup l "vrrp" with
      | some (.seq items) => items.map (fun it => mkVrrp (asObj it))
      | _ => [])
    Augments := mkAugments (asObj ((listLookup l "augments").getD (.obj [])))
    Prefixes4 := []
    Prefixes6 := [] }

/-- Modelled from the spec: strict deserialization of the input document
onto the schema (`yaml.UnmarshalStrict`, src/config.go line 158, whose
code is not in the repository).  Any key without a corresponding
declared field, and any value of the wrong shape for its field, is a
hard error; an omitted field keeps the Go zero value. -/
def unmarshalStrict (l : List (String × YVal)) : Except String config :=
  if docOk l then .ok (mkConfig l)
  else .error "unknown or ill-typed field in input document"

/-! ## Validation, defaulting, and the loadConfig pipeline
(src/config.go lines 156–255) -/

/-- Modelled from the go-playground/validator library's behaviour on the
declared tags (the library is not in the repository): `validate.Struct`
checks `required` on the root fields `ASN` and `RouterID`; the tags
inside `peer` and `vrrpInstance` are not reached, because the `Peers`,
`Interfaces` and `VRRPInstances` fields carry no `dive` tag and maps and
slices are not traversed without one.  All violations are reported
together.  The message text is a placeholder for the library's. -/
def validateConfig (c : config) : Option String :=
  let errs :=
    (if c.ASN = 0 then ["Field validation for ASN failed on the required tag"] else []) ++
    (if c.RouterID = "" then ["Field validation for RouterID failed on the required tag"] else [])
  if errs.isEmpty then none else some (String.intercalate "; " errs)

/-- Modelled from the creasty/defaults library (not in the repository) on
the root struct's tags: every field carrying a `default` tag and holding
its type's zero value is assigned the declared default.  `Peers` and
`Interfaces` are maps and are not traversed (the source defaults each
peer explicitly, src/config.go lines 170–175). -/
def setConfigDefaults (c : config) : config :=
  { c with
    IRRServer := if c.IRRServer = "" then "rr.ntt.net" else c.IRRServer
    RTRServer := if c.RTRServer = "" then "rtr.rpki.cloudflare.com" else c.RTRServer
    RTRPort := if c.RTRPort = 0 then 8282 else c.RTRPort
    KeepFiltered := if c.KeepFiltered = false then false else c.KeepFiltered
    MergePaths := if c.MergePaths = false then false else c.MergePaths
    AcceptDefault := if c.AcceptDefault = false then false else c.AcceptDefault
    BirdDirectory := if c.BirdDirectory = "" then "/etc/bird/" else c.BirdDirectory
    BirdSocket := if c.BirdSocket = "" then "/run/bird/bird.ctl" else c.BirdSocket
    KeepalivedConfig := if c.KeepalivedConfig = "" then "/etc/keepalived.conf" else c.KeepalivedConfig
    WebUIFile := if c.WebUIFile = "" then "/run/wireframe.html" else c.WebUIFile
    PeeringDbQueryTimeout := if c.PeeringDbQueryTimeout = 0 then 10 else c.PeeringDbQueryTimeout
    IRRQueryTimeout := if c.IRRQueryTimeout = 0 then 30 else c.IRRQueryTimeout }

/-- Modelled from the creasty/defaults library on the `peer` struct's
tags (src/config.go lines 24–83): zero-valued tagged fields receive the
declared default. -/
def setPeerDefaults (p : peer) : peer :=
  { p with
    Prepends := if p.Prepends = 0 then 0 else p.Prepends
    LocalPref := if p.LocalPref = 0 then 100 else p.LocalPref
    Multihop := if p.Multihop = false then false else p.Multihop
    LocalPort := if p.LocalPort = 0 then 179 else p.LocalPort
    NeighborPort := if p.NeighborPort = 0 then 179 else p.NeighborPort
    Passive := if p.Passive = false then false else p.Passive
    NextHopSelf := if p.NextHopSelf = false then false else p.NextHopSelf
    BFD := if p.BFD = false then false else p.BFD
    RSClient := if p.RSClient = false then false else p.RSClient
    RRClient := if p.RRClient = false then false else p.RRClient
    RemovePrivateASNs := if p.RemovePrivateASNs = false then true else p.RemovePrivateASNs
    MPUnicast46 := if p.MPUnicast46 = false then false else p.MPUnicast46
    ImportLimit4 := if p.ImportLimit4 = 0 then 1000000 else p.ImportLimit4
    ImportLimit6 := if p.ImportLimit6 = 0 then 100000 else p.ImportLimit6
    EnforceFirstAS := if p.EnforceFirstAS = false then true else p.EnforceFirstAS
    EnforcePeerNexthop := if p.EnforcePeerNexthop = false then true else p.EnforcePeerNexthop
    MaxPrefixTripAction := if p.MaxPrefixTripAction = "" then "disable" else p.MaxPrefixTripAction
    AllowBlackholeCommunity := if p.AllowBlackholeCommunity = false then false else p.AllowBlackholeCommunity
    FilterIRR := if p.FilterIRR = false then true else p.FilterIRR
    FilterRPKI := if p.FilterRPKI = false then true else p.FilterRPKI
    FilterMaxPrefix := if peer.FilterMaxPrefix p = false then true else peer.FilterMaxPrefix p
    FilterBogons := if p.FilterBogons = false then true else p.FilterBogons
    FilterTier1ASNs := if p.FilterTier1ASNs = false then false else p.FilterTier1ASNs
    AutoImportLimits := if p.AutoImportLimits = false then false else p.AutoImportLimits
    AutoASSet := if p.AutoASSet = false then false else p.AutoASSet
    AnnounceDefault := if p.AnnounceDefault = false then false else p.AnnounceDefault
    AnnounceSpecifics := if p.AnnounceSpecifics = false then true else p.AnnounceSpecifics }

/-- The defaulted configuration: `defaults.Set(&config)` and then
`defaults.Set(peerData)` for every peer through its map pointer
(src/config.go lines 167–175). -/
def defaultedConfig (c : config) : config :=
  let c1 := setConfigDefaults c
  { c1 with Peers := c1.Peers.map (fun kv => (kv.1, setPeerDefaults kv.2)) }

/-- The origin-prefix loop (src/config.go lines 178–189) and the peer
prefix loop (lines 240–251): parse each entry as CIDR, error with
`errPre ++ entry` on failure, append to the first list when `To4` is nil
(the branch the source comments "If IPv6") and to the second otherwise.
The source appends the IPv6 entries to the `…4` field and the IPv4
entries to the `…6` field; the accumulators here are in that source
order: `acc4` is the list stored into `Prefixes4`/`PrefixSet4`. -/
def cidrListPartition (errPre : String) :
    List String → List String → List String → Except String (List String × List String)
  | [], acc4, acc6 => .ok (acc4, acc6)
  | pfx :: rest, acc4, acc6 =>
    match parseCIDR pfx with
    | none => .error (errPre ++ pfx)
    | some ip =>
      match ipTo4 ip with
      | none => cidrListPartition errPre rest (acc4 ++ [pfx]) acc6  -- If IPv6
      | some _ => cidrListPartition errPre rest acc4 (acc6 ++ [pfx])  -- If IPv4

/-- The static-route loop (src/config.go lines 196–210): parse the
prefix as CIDR and the next hop as an IP, then insert into the family
map matching the prefix's family — `Statics6` when `To4` is nil,
`Statics4` otherwise (this loop's branches match the field names).
The iterated keys come from a Go map and are distinct, so a map insert
is an append. -/
def staticsLoop :
    List (String × String) → List (String × String) → List (String × String) →
      Except String (List (String × String) × List (String × String))
  | [], s4, s6 => .ok (s4, s6)
  | (pfx, nexthop) :: rest, s4, s6 =>
    match parseCIDR pfx with
    | none => .error ("invalid static prefix: " ++ pfx)
    | some ip =>
      if parseIP nexthop = none then .error ("invalid static nexthop: " ++ nexthop)
      else
        match ipTo4 ip with
        | none => staticsLoop rest s4 (s6 ++ [(pfx, nexthop)])  -- If IPv6
        | some _ => staticsLoop rest (s4 ++ [(pfx, nexthop)]) s6  -- If IPv4

/-- The VIP loop of one VRRP instance (src/config.go lines 215–226):
parse each VIP as CIDR, error on failure, append to `VIPs6` when `To4`
is nil and to `VIPs4` otherwise. -/
def vipsLoop :
    List String → List String → List String → Except String (List String × List String)
  | [], v4, v6 => .ok (v4, v6)
  | vip :: rest, v4, v6 =>
    match parseCIDR vip with
    | none => .error ("invalid VIP: " ++ vip)
    | some ip =>
      match ipTo4 ip with
      | none => vipsLoop rest v4 (v6 ++ [vip])  -- If IPv6
      | some _ => vipsLoop rest (v4 ++ [vip]) v6  -- If IPv4

/-- The VRRP loop (src/config.go lines 213–236).  The source ranges over
`[]vrrpInstance` by value: the VIP lists and the canonicalized `State`
are written to a loop-local copy and discarded, so on the success path
the stored instances are unchanged; only the errors escape the loop. -/
def vrrpLoop : List vrrpInstance → Option String
  | [] => none
  | v :: rest =>
    match vipsLoop v.VIPs v.VIPs4 v.VIPs6 with
    | .error e => some e
    | .ok _ =>  -- the partitioned VIP lists are dropped with the copy
      if v.State = "primary" then vrrpLoop rest  -- copy's State set to "MASTER", dropped
      else if v.State = "backup" then vrrpLoop rest  -- copy's State set to "BACKUP", dropped
      else some ("VRRP state must be 'primary' or 'backup', unexpected " ++ v.State)

/-- One peer's prefix partition (src/config.go lines 240–251), writing
the two derived sets back through the peer's map pointer. -/
def processPeer (p : peer) : Except String peer :=
  match cidrListPartition "invalid prefix: " p.Prefixes p.PrefixSet4 p.PrefixSet6 with
  | .error e => .error e
  | .ok (s4, s6) => .ok { p with PrefixSet4 := s4, PrefixSet6 := s6 }

/-- Total form of `processPeer` on its success path. -/
def processPeerD (p : peer) : peer :=
  match processPeer p with
  | .ok q => q
  | .error _ => p

/-- The loop over the peers map (src/config.go lines 239–252): the map
itself is kept, each peer mutated in place through its pointer. -/
def peersLoop :
    List (String × peer) → List (String × peer) → Except String (List (String × peer))
  | [], acc => .ok acc
  | (k, p) :: rest, acc =>
    match processPeer p with
    | .error e => .error e
    | .ok q => peersLoop rest (acc ++ [(k, q)])

/-- Everything `loadConfig` does after the yaml unmarshal
(src/config.go lines 162–254): validate, set defaults on the root and on
every peer, partition the origin prefixes, initialize and fill the
static family maps, run the VRRP loop, and build the per-peer prefix
sets.  Mirrors Go's `(*config, error)` pair: each `return nil, err` site
is `(none, some msg)` and the final return is `(some cfg, none)`. -/
def loadConfigFromStruct (c0 : config) : Option config × Option String :=
  match validateConfig c0 with
  | some e => (none, some ("validation: " ++ e))
  | none =>
    let c2 := defaultedConfig c0
    match cidrListPartition "invalid origin prefix: " c2.Prefixes c2.Prefixes4 c2.Prefixes6 with
    | .error e => (none, some e)
    | .ok (p4, p6) =>
      let c3 := { c2 with Prefixes4 := p4, Prefixes6 := p6 }
      -- Initialize static maps (lines 192–193)
      let c4 := { c3 with Augments := { c3.Augments with Statics4 := some [], Statics6 := some [] } }
      match staticsLoop c4.Augments.Statics [] [] with
      | .error e => (none, some e)
      | .ok (s4, s6) =>
        let c5 := { c4 with Augments := { c4.Augments with Statics4 := some s4, Statics6 := some s6 } }
        match vrrpLoop c5.VRRPInstances with
        | some e => (none, some e)
        | none =>
          match peersLoop c5.Peers [] with
          | .error e => (none, some e)
          | .ok ps => (some { c5 with Peers := ps }, none)

/-- `loadConfig` (src/config.go lines 156–255) on an input document:
strict unmarshal, then the validated/defaulted/normalized pipeline. -/
def loadConfig (l : List (String × YVal)) : Option config × Option String :=
  match unmarshalStrict l with
  | .error e => (none, some ("yaml unmarshal: " ++ e))
  | .ok c0 => loadConfigFromStruct c0

/-- The returned configuration of a successful load (the zero config for
an error result; the claims always pair this with a success hypothesis). -/
def outConfig (r : Option config × Option String) : config :=
  r.1.getD (mkConfig [])

/-! ## Predicates used by the claims -/

/-- A valid static-route entry: CIDR prefix and parseable next hop. -/
def staticOk (kv : String × String) : Bool :=
  (parseCIDR kv.1).isSome && (parseIP kv.2).isSome

/-- All of a peer's allow-list prefixes are valid CIDRs. -/
def peerOkB (p : peer) : Bool :=
  p.Prefixes.all (fun s => (parseCIDR s).isSome)

/-- A VRRP instance the loop passes: valid VIPs and a recognized state. -/
def vrrpEntryOk (v : vrrpInstance) : Bool :=
  v.VIPs.all (fun s => (parseCIDR s).isSome) &&
  (v.State == "primary" || v.State == "backup")

/-- The configuration `loadConfigFromStruct` returns on its success
path, in closed form: prefixes partitioned onto the two derived lists
(IPv6 entries to the `4` list, as the source does), statics filtered by
family, every peer processed. -/
def finalForm (c : config) : config :=
  let d := defaultedConfig c
  { d with
    Prefixes4 := d.Prefixes4 ++ d.Prefixes.filter (fun s => !isIPv4Pfx s)
    Prefixes6 := d.Prefixes6 ++ d.Prefixes.filter (fun s => isIPv4Pfx s)
    Augments := { d.Augments with
      Statics4 := some (d.Augments.Statics.filter (fun kv => isIPv4Pfx kv.1))
      Statics6 := some (d.Augments.Statics.filter (fun kv => !isIPv4Pfx kv.1)) }
    Peers := d.Peers.map (fun kv => (kv.1, processPeerD kv.2)) }

/-! ### Unknown-key predicate for the strict-parse claim -/

/-- Some key of an object is not among the declared wire keys. -/
def objUnknown (known : List String) (l : List (String × YVal)) : Bool :=
  l.any (fun kv => !(known.contains kv.1))

/-- A peer object (value of the `peers` mapping) holds an unknown key. -/
def peerValUnknown : YVal → Bool
  | .obj pl => objUnknown peerKeys pl
  | _ => false

def peersValUnknown : YVal → Bool
  | .obj l => l.any (fun kv => peerValUnknown kv.2)
  | _ => false

def ifaceValUnknown : YVal → Bool
  | .obj il => objUnknown ifaceKeys il
  | _ => false

def ifacesValUnknown : YVal → Bool
  | .obj l => l.any (fun kv => ifaceValUnknown kv.2)
  | _ => false

def vrrpValUnknown : YVal → Bool
  | .obj il => objUnknown vrrpKeys il
  | _ => false

def vrrpSeqUnknown : YVal → Bool
  | .seq items => items.any (fun it => vrrpValUnknown it)
  | _ => false

def augmentsValUnknown : YVal → Bool
  | .obj al => objUnknown augmentsKeys al
  | _ => false

/-- The document holds, at the top level or inside a nested peers /
interfaces / vrrp / augments object, a key with no corresponding
declared field. -/
def docHasUnknownKey (l : List (String × YVal)) : Bool :=
  objUnknown configKeys l
  || (match listLookup l "peers" with | some v => peersValUnknown v | none => false)
  || (match listLookup l "interfaces" with | some v => ifacesValUnknown v | none => false)
  || (match listLookup l "vrrp" with | some v => vrrpSeqUnknown v | none => false)
  || (match listLookup l "augments" with | some v => augmentsValUnknown v | none => false)

/-! ### Field-preservation predicates (defaulting claims)

`peerNonzeroPreserved p q`: every non-derived field of `q` agrees with
`p` — unconditionally for the fields without a `default` tag, and under
the hypothesis that `p`'s value is not the type's zero value for the
tagged ones.  The derived `PrefixSet4`/`PrefixSet6` are excluded (the
normalizer computes them). -/
def peerNonzeroPreserved (p q : peer) : Prop :=
  q.Description = p.Description ∧ q.Disabled = p.Disabled ∧ q.ASN = p.ASN ∧
  q.NeighborIPs = p.NeighborIPs ∧
  (p.Prepends ≠ 0 → q.Prepends = p.Prepends) ∧
  (p.LocalPref ≠ 0 → q.LocalPref = p.LocalPref) ∧
  (p.Multihop = true → q.Multihop = p.Multihop) ∧
  q.Listen = p.Listen ∧
  (p.LocalPort ≠ 0 → q.LocalPort = p.LocalPort) ∧
  (p.NeighborPort ≠ 0 → q.NeighborPort = p.NeighborPort) ∧
  (p.Passive = true → q.Passive = p.Passive) ∧
  (p.NextHopSelf = true → q.NextHopSelf = p.NextHopSelf) ∧
  (p.BFD = true → q.BFD = p.BFD) ∧
  q.Communities = p.Communities ∧ q.LargeCommunities = p.LargeCommunities ∧
  q.Password = p.Password ∧
  (p.RSClient = true → q.RSClient = p.RSClient) ∧
  (p.RRClient = true → q.RRClient = p.RRClient) ∧
  (p.RemovePrivateASNs = true → q.RemovePrivateASNs = p.RemovePrivateASNs) ∧
  (p.MPUnicast46 = true → q.MPUnicast46 = p.MPUnicast46) ∧
  q.ASSet = p.ASSet ∧
  (p.ImportLimit4 ≠ 0 → q.ImportLimit4 = p.ImportLimit4) ∧
  (p.ImportLimit6 ≠ 0 → q.ImportLimit6 = p.ImportLimit6) ∧
  (p.EnforceFirstAS = true → q.EnforceFirstAS = p.EnforceFirstAS) ∧
  (p.EnforcePeerNexthop = true → q.EnforcePeerNexthop = p.EnforcePeerNexthop) ∧
  (p.MaxPrefixTripAction ≠ "" → q.MaxPrefixTripAction = p.MaxPrefixTripAction) ∧
  (p.AllowBlackholeCommunity = true → q.AllowBlackholeCommunity = p.AllowBlackholeCommunity) ∧
  (p.FilterIRR = true → q.FilterIRR = p.FilterIRR) ∧
  (p.FilterRPKI = true → q.FilterRPKI = p.FilterRPKI) ∧
  ( peer.FilterMaxPrefix p = true → peer.FilterMaxPrefix q = peer.FilterMaxPrefix p) ∧
  (p.FilterBogons = true → q.FilterBogons = p.FilterBogons) ∧
  (p.FilterTier1ASNs = true → q.FilterTier1ASNs = p.FilterTier1ASNs) ∧
  (p.AutoImportLimits = true → q.AutoImportLimits = p.AutoImportLimits) ∧
  (p.AutoASSet = true → q.AutoASSet = p.AutoASSet) ∧
  q.Prefixes = p.Prefixes ∧
  (p.AnnounceDefault = true → q.AnnounceDefault = p.AnnounceDefault) ∧
  (p.AnnounceSpecifics = true → q.AnnounceSpecifics = p.AnnounceSpecifics) ∧
  q.SessionGlobal = p.SessionGlobal ∧ q.PreImport = p.PreImport ∧
  q.PreExport = p.PreExport ∧ q.PreImportFinal = p.PreImportFinal ∧
  q.PreExportFinal = p.PreExportFinal ∧
  q.ProtocolName = p.ProtocolName ∧ q.Protocols = p.Protocols

/-- Option form of `peerNonzeroPreserved`: the looked-up output peer
exists and preserves `p`'s non-zero fields. -/
def optPeerNonzeroPreserved (p : peer) : Option peer → Prop
  | some q => peerNonzeroPreserved p q
  | none => False

/-- Root-level form of the same: every non-derived field of the output
agrees with the input — unconditionally for untagged fields (including
the untouched `Interfaces`, `VRRPInstances` and the non-derived
`Augments` fields), and for tagged fields when the input value is not
the zero value.  The derived `Prefixes4`/`Prefixes6`,
`Statics4`/`Statics6` and the normalized `Peers` are excluded. -/
def rootNonzeroPreserved (c out : config) : Prop :=
  out.ASN = c.ASN ∧ out.Prefixes = c.Prefixes ∧
  out.Communities = c.Communities ∧ out.LargeCommunities = c.LargeCommunities ∧
  out.RouterID = c.RouterID ∧
  (c.IRRServer ≠ "" → out.IRRServer = c.IRRServer) ∧
  (c.RTRServer ≠ "" → out.RTRServer = c.RTRServer) ∧
  (c.RTRPort ≠ 0 → out.RTRPort = c.RTRPort) ∧
  (c.KeepFiltered = true → out.KeepFiltered = c.KeepFiltered) ∧
  (c.MergePaths = true → out.MergePaths = c.MergePaths) ∧
  out.Source4 = c.Source4 ∧ out.Source6 = c.Source6 ∧
  (c.AcceptDefault = true → out.AcceptDefault = c.AcceptDefault) ∧
  (c.BirdDirectory ≠ "" → out.BirdDirectory = c.BirdDirectory) ∧
  (c.BirdSocket ≠ "" → out.BirdSocket = c.BirdSocket) ∧
  (c.KeepalivedConfig ≠ "" → out.KeepalivedConfig = c.KeepalivedConfig) ∧
  (c.WebUIFile ≠ "" → out.WebUIFile = c.WebUIFile) ∧
  (c.PeeringDbQueryTimeout ≠ 0 → out.PeeringDbQueryTimeout = c.PeeringDbQueryTimeout) ∧
  (c.IRRQueryTimeout ≠ 0 → out.IRRQueryTimeout = c.IRRQueryTimeout) ∧
  out.Interfaces = c.Interfaces ∧ out.VRRPInstances = c.VRRPInstances ∧
  out.Augments.Accept4 = c.Augments.Accept4 ∧
  out.Augments.Accept6 = c.Augments.Accept6 ∧
  out.Augments.Reject4 = c.Augments.Reject4 ∧
  out.Augments.Reject6 = c.Augments.Reject6 ∧
  out.Augments.Statics = c.Augments.Statics

/-- Per-peer defaulting: each declared-default field that holds the zero
value in the deserialized peer `p` holds the declared default in the
output peer. -/
def peerDefaultsFilled (p q : peer) : Prop :=
  (p.Prepends = 0 → q.Prepends = 0) ∧
  (p.LocalPref = 0 → q.LocalPref = 100) ∧
  (p.Multihop = false → q.Multihop = false) ∧
  (p.LocalPort = 0 → q.LocalPort = 179) ∧
  (p.NeighborPort = 0 → q.NeighborPort = 179) ∧
  (p.Passive = false → q.Passive = false) ∧
  (p.NextHopSelf = false → q.NextHopSelf = false) ∧
  (p.BFD = false → q.BFD = false) ∧
  (p.RSClient = false → q.RSClient = false) ∧
  (p.RRClient = false → q.RRClient = false) ∧
  (p.RemovePrivateASNs = false → q.RemovePrivateASNs = true) ∧
  (p.MPUnicast46 = false → q.MPUnicast46 = false) ∧
  (p.ImportLimit4 = 0 → q.ImportLimit4 = 1000000) ∧
  (p.ImportLimit6 = 0 → q.ImportLimit6 = 100000) ∧
  (p.EnforceFirstAS = false → q.EnforceFirstAS = true) ∧
  (p.EnforcePeerNexthop = false → q.EnforcePeerNexthop = true) ∧
  (p.MaxPrefixTripAction = "" → q.MaxPrefixTripAction = "disable") ∧
  (p.AllowBlackholeCommunity = false → q.AllowBlackholeCommunity = false) ∧
  (p.FilterIRR = false → q.FilterIRR = true) ∧
  (p.FilterRPKI = false → q.FilterRPKI = true) ∧
  ( peer.FilterMaxPrefix p = false → peer.FilterMaxPrefix q = true) ∧
  (p.FilterBogons = false → q.FilterBogons = true) ∧
  (p.FilterTier1ASNs = false → q.FilterTier1ASNs = false) ∧
  (p.AutoImportLimits = false → q.AutoImportLimits = false) ∧
  (p.AutoASSet = false → q.AutoASSet = false) ∧
  (p.AnnounceDefault = false → q.AnnounceDefault = false) ∧
  (p.AnnounceSpecifics = false → q.AnnounceSpecifics = true)

/-- Option form of `peerDefaultsFilled`. -/
def optPeerDefaultsFilled (p : peer) : Option peer → Prop
  | some q => peerDefaultsFilled p q
  | none => False

/-- Root-level defaulting: each declared-default root field that holds
the zero value after deserialization holds the declared default in the
output. -/
def rootDefaultsFilled (c out : config) : Prop :=
  (c.IRRServer = "" → out.IRRServer = "rr.ntt.net") ∧
  (c.RTRServer = "" → out.RTRServer = "rtr.rpki.cloudflare.com") ∧
  (c.RTRPort = 0 → out.RTRPort = 8282) ∧
  (c.KeepFiltered = false → out.KeepFiltered = false) ∧
  (c.MergePaths = false → out.MergePaths = false) ∧
  (c.AcceptDefault = false → out.AcceptDefault = false) ∧
  (c.BirdDirectory = "" → out.BirdDirectory = "/etc/bird/") ∧
  (c.BirdSocket = "" → out.BirdSocket = "/run/bird/bird.ctl") ∧
  (c.KeepalivedConfig = "" → out.KeepalivedConfig = "/etc/keepalived.conf") ∧
  (c.WebUIFile = "" → out.WebUIFile = "/run/wireframe.html") ∧
  (c.PeeringDbQueryTimeout = 0 → out.PeeringDbQueryTimeout = 10) ∧
  (c.IRRQueryTimeout = 0 → out.IRRQueryTimeout = 30)

/-! ### Structural equivalence for the two-run determinism claim -/

/-- The map entries of two optional association lists agree up to
order. -/
def optListPerm (a b : Option (List (String × String))) : Prop :=
  match a, b with
  | some x, some y => x.Perm y
  | none, none => True
  | _, _ => False

/-- Structural equality of two returned configurations in the sense of
the two-run claim: every scalar and every derived list equal, and every
field that models an unordered Go map equal as a set of entries
(a permutation of the association list). -/
def configEquiv (a b : config) : Prop :=
  a.ASN = b.ASN ∧ a.Prefixes = b.Prefixes ∧ a.Communities = b.Communities ∧
  a.LargeCommunities = b.LargeCommunities ∧ a.RouterID = b.RouterID ∧
  a.IRRServer = b.IRRServer ∧ a.RTRServer = b.RTRServer ∧
  a.RTRPort = b.RTRPort ∧ a.KeepFiltered = b.KeepFiltered ∧
  a.MergePaths = b.MergePaths ∧ a.Source4 = b.Source4 ∧
  a.Source6 = b.Source6 ∧ a.AcceptDefault = b.AcceptDefault ∧
  a.BirdDirectory = b.BirdDirectory ∧ a.BirdSocket = b.BirdSocket ∧
  a.KeepalivedConfig = b.KeepalivedConfig ∧ a.WebUIFile = b.WebUIFile ∧
  a.PeeringDbQueryTimeout = b.PeeringDbQueryTimeout ∧
  a.IRRQueryTimeout = b.IRRQueryTimeout ∧
  a.Peers.Perm b.Peers ∧ a.Interfaces.Perm b.Interfaces ∧
  a.VRRPInstances = b.VRRPInstances ∧
  a.Prefixes4 = b.Prefixes4 ∧ a.Prefixes6 = b.Prefixes6 ∧
  a.Augments.Accept4 = b.Augments.Accept4 ∧
  a.Augments.Accept6 = b.Augments.Accept6 ∧
  a.Augments.Reject4 = b.Augments.Reject4 ∧
  a.Augments.Reject6 = b.Augments.Reject6 ∧
  a.Augments.Statics.Perm b.Augments.Statics ∧
  optListPerm a.Augments.Statics4 b.Augments.Statics4 ∧
  optListPerm a.Augments.Statics6 b.Augments.Statics6

/-- The same deserialized configuration with its three unordered Go maps
iterated in another order: what a second run of `loadConfig` on the same
byte buffer may see. -/
def reorderedConfig (c : config) (ps : List (String × peer))
    (ifs : List (String × iface)) (ss : List (String × String)) : config :=
  { c with
    Peers := ps
    Interfaces := ifs
    Augments := { c.Augments with Statics := ss } }

/-! ## Concrete documents used by witnesses and counterexamples -/

/-- A representative input document: two origin prefixes (one per
family), two peers with allow-lists, one interface, one VRRP instance in
state `primary`, and two static routes (one per family).  The peer `a`
explicitly sets `local-pref` to 0. -/
def sampleDoc : List (String × YVal) := [
  ("asn", .num 65001),
  ("router-id", .str "1.1.1.1"),
  ("prefixes", .strList ["192.0.2.0/24", "2001:db8::/32"]),
  ("peers", .obj [
    ("a", .obj [
      ("asn", .num 65002),
      ("neighbors", .strList ["192.0.2.1"]),
      ("local-pref", .num 0),
      ("prefixes", .strList ["10.0.0.0/8", "2001:db8:1::/48"])]),
    ("b", .obj [
      ("asn", .num 65003),
      ("neighbors", .strList ["2001:db8::5"]),
      ("prefixes", .strList ["172.16.0.0/12"])])]),
  ("interfaces", .obj [("eth0", .obj [("mtu", .num 9000)])]),
  ("vrrp", .seq [.obj [
    ("state", .str "primary"),
    ("interface", .str "eth0"),
    ("vrid", .num 1),
    ("priority", .num 1),
    ("vips", .strList ["192.0.2.1/32"])]]),
  ("augments", .obj [("statics", .strMap [
    ("203.0.113.0/24", "192.0.2.254"),
    ("2001:db8:2::/48", "2001:db8::1")])])]

/-- A document whose only VRRP instance has the unrecognized state
`nonsense`. -/
def badStateDoc : List (String × YVal) := [
  ("asn", .num 65001),
  ("router-id", .str "1.1.1.1"),
  ("vrrp", .seq [.obj [
    ("state", .str "nonsense"),
    ("interface", .str "eth0"),
    ("vrid", .num 1),
    ("priority", .num 1),
    ("vips", .strList ["192.0.2.1/32"])]])]

/-- A document with an unknown top-level key. -/
def badKeyDoc : List (String × YVal) :=
  [("asn", .num 65001), ("router-id", .str "1.1.1.1"), ("bogus", .str "x")]

/-- The deserialized sample document, used by the struct-level witnesses. -/
def sampleConfig : config := mkConfig sampleDoc

/-! ## Supporting lemmas -/

theorem listLookup_mem {α : Type} {l : List (String × α)} {k : String} {v : α}
    (h : listLookup l k = some v) : (k, v) ∈ l := by
  induction l with
  | nil => simp [listLookup] at h
  | cons kv rest ih =>
    obtain ⟨k', v'⟩ := kv
    by_cases hk : k' = k
    · subst hk
      simp [listLookup] at h
      simp [h]
    · simp [listLookup, hk] at h
      exact List.mem_cons_of_mem _ (ih h)

theorem listLookup_map {α β : Type} (f : α → β) (l : List (String × α)) (k : String) :
    listLookup (l.map (fun kv => (kv.1, f kv.2))) k = (listLookup l k).map f := by
  induction l with
  | nil => simp [listLookup]
  | cons kv rest ih =>
    by_cases hk : kv.1 = k
    · simp [listLookup, hk]
    · simp [listLookup, hk, ih]

theorem cidrPart_ok_of_all (m : String) (l a4 a6 : List String)
    (h : ∀ s ∈ l, (parseCIDR s).isSome = true) :
    cidrListPartition m l a4 a6 =
      .ok (a4 ++ l.filter (fun s => !isIPv4Pfx s), a6 ++ l.filter (fun s => isIPv4Pfx s)) := by
  induction l generalizing a4 a6 with
  | nil => simp [cidrListPartition]
  | cons s rest ih =>
    have hs := h s (List.mem_cons_self s rest)
    obtain ⟨ip, hip⟩ := Option.isSome_iff_exists.mp hs
    have hrest : ∀ x ∈ rest, (parseCIDR x).isSome = true :=
      fun x hx => h x (List.mem_cons_of_mem _ hx)
    cases h4 : ipTo4 ip with
    | none =>
      have hv : isIPv4Pfx s = false := by simp [isIPv4Pfx, hip, h4]
      simp [cidrListPartition, hip, h4, ih _ _ hrest, hv]
    | some b =>
      have hv : isIPv4Pfx s = true := by simp [isIPv4Pfx, hip, h4]
      simp [cidrListPartition, hip, h4, ih _ _ hrest, hv]

theorem cidrPart_all_of_ok {m : String} {l a4 a6 : List String}
    {r : List String × List String}
    (h : cidrListPartition m l a4 a6 = .ok r) :
    ∀ s ∈ l, (parseCIDR s).isSome = true := by
  induction l generalizing a4 a6 with
  | nil => intro s hs; cases hs
  | cons s rest ih =>
    intro x hx
    cases hip : parseCIDR s with
    | none => simp [cidrListPartition, hip] at h
    | some ip =>
      rcases List.mem_cons.mp hx with hx | hx
      · subst hx; simp [hip]
      · cases h4 : ipTo4 ip with
        | none =>
          simp only [cidrListPartition, hip, h4] at h
          exact ih h x hx
        | some b =>
          simp only [cidrListPartition, hip, h4] at h
          exact ih h x hx

theorem staticsLoop_ok_of_all (l s4 s6 : List (String × String))
    (h : ∀ kv ∈ l, staticOk kv = true) :
    staticsLoop l s4 s6 =
      .ok (s4 ++ l.filter (fun kv => isIPv4Pfx kv.1),
           s6 ++ l.filter (fun kv => !isIPv4Pfx kv.1)) := by
  induction l generalizing s4 s6 with
  | nil => simp [staticsLoop]
  | cons kv rest ih =>
    obtain ⟨pfx, nexthop⟩ := kv
    have hs := h (pfx, nexthop) (List.mem_cons_self _ rest)
    simp only [staticOk, Bool.and_eq_true] at hs
    obtain ⟨ip, hip⟩ := Option.isSome_iff_exists.mp hs.1
    have hnh : ¬ parseIP nexthop = none := by
      intro hn; rw [hn] at hs; simp at hs
    have hrest : ∀ x ∈ rest, staticOk x = true :=
      fun x hx => h x (List.mem_cons_of_mem _ hx)
    cases h4 : ipTo4 ip with
    | none =>
      have hv : isIPv4Pfx pfx = false := by simp [isIPv4Pfx, hip, h4]
      simp [staticsLoop, hip, h4, hnh, ih _ _ hrest, hv]
    | some b =>
      have hv : isIPv4Pfx pfx = true := by simp [isIPv4Pfx, hip, h4]
      simp [staticsLoop, hip, h4, hnh, ih _ _ hrest, hv]

theorem staticsLoop_all_of_ok {l s4 s6 : List (String × String)}
    {r : List (String × String) × List (String × String)}
    (h : staticsLoop l s4 s6 = .ok r) :
    ∀ kv ∈ l, staticOk kv = true := by
  induction l generalizing s4 s6 with
  | nil => intro kv hkv; cases hkv
  | cons kv rest ih =>
    intro x hx
    obtain ⟨pfx, nexthop⟩ := kv
    cases hip : parseCIDR pfx with
    | none => simp [staticsLoop, hip] at h
    | some ip =>
      by_cases hnh : parseIP nexthop = none
      · simp [staticsLoop, hip, hnh] at h
      · rcases List.mem_cons.mp hx with hx | hx
        · subst hx
          simp [staticOk, hip, Option.isSome_iff_exists]
          exact Option.ne_none_iff_exists'.mp hnh
        · cases h4 : ipTo4 ip with
          | none =>
            simp only [staticsLoop, hip, hnh, if_neg, h4] at h
            exact ih (by simpa using h) x hx
          | some b =>
            simp only [staticsLoop, hip, hnh, if_neg, h4] at h
            exact ih (by simpa using h) x hx

theorem processPeer_ok_iff (p : peer) :
    (∃ q, processPeer p = .ok q) ↔ peerOkB p = true := by
  constructor
  · rintro ⟨q, hq⟩
    rw [peerOkB, List.all_eq_true]
    unfold processPeer at hq
    cases hc : cidrListPartition "invalid prefix: " p.Prefixes p.PrefixSet4 p.PrefixSet6 with
    | error e => rw [hc] at hq; cases hq
    | ok r =>
      intro s hs
      exact cidrPart_all_of_ok hc s hs
  · intro hall
    rw [peerOkB, List.all_eq_true] at hall
    refine ⟨{ p with
        PrefixSet4 := p.PrefixSet4 ++ p.Prefixes.filter (fun s => !isIPv4Pfx s)
        PrefixSet6 := p.PrefixSet6 ++ p.Prefixes.filter (fun s => isIPv4Pfx s) }, ?_⟩
    unfold processPeer
    rw [cidrPart_ok_of_all _ _ _ _ hall]

theorem processPeerD_eq {p : peer} (h : peerOkB p = true) :
    processPeerD p =
      { p with
        PrefixSet4 := p.PrefixSet4 ++ p.Prefixes.filter (fun s => !isIPv4Pfx s)
        PrefixSet6 := p.PrefixSet6 ++ p.Prefixes.filter (fun s => isIPv4Pfx s) } := by
  rw [peerOkB, List.all_eq_true] at h
  unfold processPeerD processPeer
  rw [cidrPart_ok_of_all _ _ _ _ h]

theorem processPeerD_shape (p : peer) :
    ∃ s4 s6, processPeerD p = { p with PrefixSet4 := s4, PrefixSet6 := s6 } := by
  unfold processPeerD processPeer
  cases hc : cidrListPartition "invalid prefix: " p.Prefixes p.PrefixSet4 p.PrefixSet6 with
  | error e => exact ⟨p.PrefixSet4, p.PrefixSet6, rfl⟩
  | ok r => exact ⟨r.1, r.2, rfl⟩

theorem peersLoop_ok_of_all (l acc : List (String × peer))
    (h : ∀ kv ∈ l, peerOkB kv.2 = true) :
    peersLoop l acc = .ok (acc ++ l.map (fun kv => (kv.1, processPeerD kv.2))) := by
  induction l generalizing acc with
  | nil => simp [peersLoop]
  | cons kv rest ih =>
    obtain ⟨k, p⟩ := kv
    have hp : peerOkB p = true := h (k, p) (List.mem_cons_self _ rest)
    obtain ⟨q, hq⟩ := (processPeer_ok_iff p).mpr hp
    have hd : processPeerD p = q := by unfold processPeerD; rw [hq]
    have hrest : ∀ x ∈ rest, peerOkB x.2 = true :=
      fun x hx => h x (List.mem_cons_of_mem _ hx)
    simp [peersLoop, hq, ih _ hrest, hd]

theorem peersLoop_all_of_ok {l acc r : List (String × peer)}
    (h : peersLoop l acc = .ok r) :
    ∀ kv ∈ l, peerOkB kv.2 = true := by
  induction l generalizing acc with
  | nil => intro kv hkv; cases hkv
  | cons kv rest ih =>
    intro x hx
    obtain ⟨k, p⟩ := kv
    cases hq : processPeer p with
    | error e => simp [peersLoop, hq] at h
    | ok q =>
      rcases List.mem_cons.mp hx with hx | hx
      · subst hx
        exact (processPeer_ok_iff p).mp ⟨q, hq⟩
      · simp only [peersLoop, hq] at h
        exact ih h x hx

theorem defaultedConfig_Prefixes (c : config) :
    (defaultedConfig c).Prefixes = c.Prefixes := rfl

theorem defaultedConfig_Prefixes4 (c : config) :
    (defaultedConfig c).Prefixes4 = c.Prefixes4 := rfl

theorem defaultedConfig_Prefixes6 (c : config) :
    (defaultedConfig c).Prefixes6 = c.Prefixes6 := rfl

theorem defaultedConfig_Augments (c : config) :
    (defaultedConfig c).Augments = c.Augments := rfl

theorem defaultedConfig_VRRP (c : config) :
    (defaultedConfig c).VRRPInstances = c.VRRPInstances := rfl

theorem defaultedConfig_Peers (c : config) :
    (defaultedConfig c).Peers = c.Peers.map (fun kv => (kv.1, setPeerDefaults kv.2)) := rfl

/-- The success path of `loadConfigFromStruct`: a `none` error component
forces validation to pass, every origin prefix, static entry and peer
prefix to parse, and the returned configuration to be `finalForm c`. -/
theorem loadS_ok_out {c : config} (h : (loadConfigFromStruct c).2 = none) :
    validateConfig c = none ∧
    (∀ s ∈ c.Prefixes, (parseCIDR s).isSome = true) ∧
    (∀ kv ∈ c.Augments.Statics, staticOk kv = true) ∧
    (∀ kv ∈ (defaultedConfig c).Peers, peerOkB kv.2 = true) ∧
    vrrpLoop c.VRRPInstances = none ∧
    loadConfigFromStruct c = (some (finalForm c), none) := by
  simp only [loadConfigFromStruct] at h
  split at h
  next e heq1 => simp at h
  next heq1 =>
    split at h
    next e heq2 => simp at h
    next p4 p6 heq2 =>
      split at h
      next e heq3 => simp at h
      next s4 s6 heq3 =>
        split at h
        next e heq4 => simp at h
        next heq4 =>
          split at h
          next e heq5 => simp at h
          next ps heq5 =>
            have hpfx : ∀ s ∈ c.Prefixes, (parseCIDR s).isSome = true := by
              have := cidrPart_all_of_ok heq2
              rwa [defaultedConfig_Prefixes] at this
            have hstat : ∀ kv ∈ c.Augments.Statics, staticOk kv = true := by
              have := staticsLoop_all_of_ok heq3
              rwa [defaultedConfig_Augments] at this
            have hpeers : ∀ kv ∈ (defaultedConfig c).Peers, peerOkB kv.2 = true :=
              peersLoop_all_of_ok heq5
            have hvr : vrrpLoop c.VRRPInstances = none := by
              rwa [defaultedConfig_VRRP] at heq4
            refine ⟨heq1, hpfx, hstat, hpeers, hvr, ?_⟩
            have hp' := cidrPart_ok_of_all "invalid origin prefix: "
              (defaultedConfig c).Prefixes (defaultedConfig c).Prefixes4
              (defaultedConfig c).Prefixes6
              (by rwa [defaultedConfig_Prefixes])
            have hs' := staticsLoop_ok_of_all (defaultedConfig c).Augments.Statics [] []
              (by rwa [defaultedConfig_Augments])
            have hl' := peersLoop_ok_of_all (defaultedConfig c).Peers [] hpeers
            simp only [loadConfigFromStruct, heq1, hp', hs', heq4, hl', List.nil_append,
              finalForm]

/-- A successful document-level load: the strict parse passed and the
rest of the pipeline is `loadConfigFromStruct` of the deserialized
struct. -/
theorem load_ok_doc {l : List (String × YVal)} (h : (loadConfig l).2 = none) :
    docOk l = true ∧ loadConfig l = loadConfigFromStruct (mkConfig l) ∧
    (loadConfigFromStruct (mkConfig l)).2 = none := by
  unfold loadConfig unmarshalStrict at h
  by_cases hd : docOk l = true
  · simp only [hd, if_true] at h
    refine ⟨hd, ?_, h⟩
    unfold loadConfig unmarshalStrict
    simp only [hd, if_true]
  · simp [hd] at h

theorem finalForm_Prefixes (c : config) : (finalForm c).Prefixes = c.Prefixes := rfl

theorem finalForm_Prefixes4 (c : config) :
    (finalForm c).Prefixes4 = c.Prefixes4 ++ c.Prefixes.filter (fun s => !isIPv4Pfx s) := rfl

theorem finalForm_Prefixes6 (c : config) :
    (finalForm c).Prefixes6 = c.Prefixes6 ++ c.Prefixes.filter (fun s => isIPv4Pfx s) := rfl

theorem finalForm_Peers (c : config) :
    (finalForm c).Peers = (defaultedConfig c).Peers.map (fun kv => (kv.1, processPeerD kv.2)) := rfl

theorem finalForm_Statics (c : config) :
    (finalForm c).Augments.Statics = c.Augments.Statics := rfl

theorem finalForm_Statics4 (c : config) :
    (finalForm c).Augments.Statics4 =
      some (c.Augments.Statics.filter (fun kv => isIPv4Pfx kv.1)) := rfl

theorem finalForm_Statics6 (c : config) :
    (finalForm c).Augments.Statics6 =
      some (c.Augments.Statics.filter (fun kv => !isIPv4Pfx kv.1)) := rfl

theorem finalForm_VRRP (c : config) :
    (finalForm c).VRRPInstances = c.VRRPInstances := rfl

theorem mkConfig_Peers (l : List (String × YVal)) :
    (mkConfig l).Peers =
      (asObj ((listLookup l "peers").getD (.obj []))).map
        (fun kv => (kv.1, mkPeer (asObj kv.2))) := rfl

/-- Every peer of a freshly deserialized and defaulted document has nil
derived prefix sets. -/
theorem defaulted_doc_peer_sets {l : List (String × YVal)} :
    ∀ kv ∈ (defaultedConfig (mkConfig l)).Peers,
      kv.2.PrefixSet4 = [] ∧ kv.2.PrefixSet6 = [] := by
  intro kv hkv
  rw [defaultedConfig_Peers, mkConfig_Peers] at hkv
  obtain ⟨kv1, hkv1, rfl⟩ := List.mem_map.mp hkv
  obtain ⟨kv2, hkv2, rfl⟩ := List.mem_map.mp hkv1
  exact ⟨rfl, rfl⟩

/-- A filter by a predicate and by its negation partitions a list's
members. -/
theorem filter_partition_mem {α : Type} (P : List α) (p : α → Bool) (s : α) :
    (s ∈ P ↔ s ∈ P.filter (fun x => !p x) ∨ s ∈ P.filter p) ∧
    ¬(s ∈ P.filter (fun x => !p x) ∧ s ∈ P.filter p) := by
  constructor
  · constructor
    · intro hs
      by_cases hv : p s = true
      · right; exact List.mem_filter.mpr ⟨hs, hv⟩
      · left; exact List.mem_filter.mpr ⟨hs, by simp [hv]⟩
    · rintro (hs | hs) <;> exact (List.mem_filter.mp hs).1
  · rintro ⟨h4, h6⟩
    have hb4 := (List.mem_filter.mp h4).2
    have hb6 := (List.mem_filter.mp h6).2
    simp [hb6] at hb4

/-- C1: for every input document that loads successfully, the derived
`Prefixes4` and `Prefixes6` lists of the returned configuration, taken
as sets, have union equal to `Prefixes` and are disjoint; and for every
peer in the returned configuration, `PrefixSet4` and `PrefixSet6` taken
as sets have union equal to that peer's `Prefixes` and are disjoint.
(Loading successfully already forces every `prefixes` entry to be a
syntactically valid CIDR.) -/
theorem C1_family_partition (l : List (String × YVal)) (h : (loadConfig l).2 = none) :
    (∀ s, s ∈ (outConfig (loadConfig l)).Prefixes ↔
        s ∈ (outConfig (loadConfig l)).Prefixes4 ∨ s ∈ (outConfig (loadConfig l)).Prefixes6) ∧
    (∀ s, ¬(s ∈ (outConfig (loadConfig l)).Prefixes4 ∧ s ∈ (outConfig (loadConfig l)).Prefixes6)) ∧
    (∀ k q, (k, q) ∈ (outConfig (loadConfig l)).Peers →
      (∀ s, s ∈ q.Prefixes ↔ s ∈ q.PrefixSet4 ∨ s ∈ q.PrefixSet6) ∧
      (∀ s, ¬(s ∈ q.PrefixSet4 ∧ s ∈ q.PrefixSet6))) := by
  obtain ⟨hd, heq, h2⟩ := load_ok_doc h
  obtain ⟨hv, hpfx, hstat, hpeers, hvr, hout⟩ := loadS_ok_out h2
  rw [heq, hout]
  have houtc : outConfig (some (finalForm (mkConfig l)), none) = finalForm (mkConfig l) := rfl
  rw [houtc]
  have h40 : (mkConfig l).Prefixes4 = [] := rfl
  have h60 : (mkConfig l).Prefixes6 = [] := rfl
  refine ⟨?_, ?_, ?_⟩
  · intro s
    rw [finalForm_Prefixes, finalForm_Prefixes4, finalForm_Prefixes6,
      h40, h60, List.nil_append, List.nil_append]
    exact (filter_partition_mem _ _ s).1
  · intro s
    rw [finalForm_Prefixes4, finalForm_Prefixes6, h40, h60,
      List.nil_append, List.nil_append]
    exact (filter_partition_mem _ _ s).2
  · intro k q hq
    rw [finalForm_Peers] at hq
    obtain ⟨kv1, hkv1, heq1⟩ := List.mem_map.mp hq
    obtain ⟨hs4, hs6⟩ := defaulted_doc_peer_sets kv1 hkv1
    have hok := hpeers kv1 hkv1
    have hq' : q = processPeerD kv1.2 := by
      have := congrArg Prod.snd heq1
      simpa using this.symm
    subst hq'
    constructor
    · intro s
      simp only [processPeerD_eq hok, hs4, hs6, List.nil_append]
      exact (filter_partition_mem _ _ s).1
    · intro s
      simp only [processPeerD_eq hok, hs4, hs6, List.nil_append]
      exact (filter_partition_mem _ _ s).2

/-- Witness for C1: the sample document loads, its IPv4 prefix lands in
one of the two derived lists, and its IPv6 prefix is in at most one. -/
theorem C1_family_partition_witness :
    ("192.0.2.0/24" ∈ (outConfig (loadConfig sampleDoc)).Prefixes4 ∨
     "192.0.2.0/24" ∈ (outConfig (loadConfig sampleDoc)).Prefixes6) ∧
    ¬("2001:db8::/32" ∈ (outConfig (loadConfig sampleDoc)).Prefixes4 ∧
      "2001:db8::/32" ∈ (outConfig (loadConfig sampleDoc)).Prefixes6) := by
  have h := C1_family_partition sampleDoc (by decide)
  exact ⟨(h.1 "192.0.2.0/24").mp (by decide), h.2.1 "2001:db8::/32"⟩

/-- Every return site of the post-unmarshal pipeline yields either a
configuration with a nil error or a nil configuration with an error. -/
theorem loadS_exclusive (c : config) :
    ((loadConfigFromStruct c).1.isSome = true ∧ (loadConfigFromStruct c).2 = none) ∨
    ((loadConfigFromStruct c).1 = none ∧ ((loadConfigFromStruct c).2).isSome = true) := by
  simp only [loadConfigFromStruct]
  split
  · right; simp
  · split
    · right; simp
    · split
      · right; simp
      · split
        · right; simp
        · split
          · right; simp
          · left; simp

/-- C8: for every input document, loading either returns a
configuration with a nil error, or a nil configuration with an error;
there is no outcome producing both. -/
theorem C8_all_or_nothing (l : List (String × YVal)) :
    ((loadConfig l).1.isSome = true ∧ (loadConfig l).2 = none) ∨
    ((loadConfig l).1 = none ∧ ((loadConfig l).2).isSome = true) := by
  unfold loadConfig unmarshalStrict
  by_cases hd : docOk l = true
  · simp only [hd, if_true]
    exact loadS_exclusive (mkConfig l)
  · simp [hd]

/-- C6: after every successful load, `Statics4` and `Statics6` are both
initialized (non-nil, possibly empty), their combined entries are
exactly the entries of `Statics` with none in both, and each entry sits
in the family map matching its prefix's family (IPv4 prefixes in
`Statics4`, IPv6 prefixes in `Statics6`). -/
theorem C6_statics_partition (l : List (String × YVal)) (h : (loadConfig l).2 = none) :
    (outConfig (loadConfig l)).Augments.Statics4 ≠ none ∧
    (outConfig (loadConfig l)).Augments.Statics6 ≠ none ∧
    (∀ kv : String × String,
      (kv ∈ ((outConfig (loadConfig l)).Augments.Statics4.getD [] : List (String × String)) ∨
       kv ∈ ((outConfig (loadConfig l)).Augments.Statics6.getD [])) ↔
      kv ∈ (outConfig (loadConfig l)).Augments.Statics) ∧
    (∀ kv : String × String,
      ¬(kv ∈ ((outConfig (loadConfig l)).Augments.Statics4.getD []) ∧
        kv ∈ ((outConfig (loadConfig l)).Augments.Statics6.getD []))) ∧
    (∀ kv ∈ ((outConfig (loadConfig l)).Augments.Statics4.getD []), isIPv4Pfx kv.1 = true) ∧
    (∀ kv ∈ ((outConfig (loadConfig l)).Augments.Statics6.getD []), isIPv4Pfx kv.1 = false) := by
  obtain ⟨hd, heq, h2⟩ := load_ok_doc h
  obtain ⟨hv, hpfx, hstat, hpeers, hvr, hout⟩ := loadS_ok_out h2
  rw [heq, hout]
  have houtc : outConfig (some (finalForm (mkConfig l)), none) = finalForm (mkConfig l) := rfl
  rw [houtc, finalForm_Statics4, finalForm_Statics6, finalForm_Statics]
  refine ⟨by simp, by simp, ?_, ?_, ?_, ?_⟩
  · intro kv
    simp only [Option.getD_some]
    constructor
    · rintro (h1 | h1) <;> exact (List.mem_filter.mp h1).1
    · intro h1
      by_cases hv4 : isIPv4Pfx kv.1 = true
      · left; exact List.mem_filter.mpr ⟨h1, hv4⟩
      · right; exact List.mem_filter.mpr ⟨h1, by simp [hv4]⟩
  · intro kv
    simp only [Option.getD_some]
    rintro ⟨h4, h6⟩
    have hb4 := (List.mem_filter.mp h4).2
    have hb6 := (List.mem_filter.mp h6).2
    simp [hb4] at hb6
  · intro kv hkv
    simp only [Option.getD_some, List.mem_filter] at hkv
    exact hkv.2
  · intro kv hkv
    simp only [Option.getD_some, List.mem_filter] at hkv
    simpa using hkv.2

/-- Witness for C6: on the sample document the static maps are
initialized and the sample's IPv4 static route is present in one of
them. -/
theorem C6_statics_partition_witness :
    (outConfig (loadConfig sampleDoc)).Augments.Statics4 ≠ none ∧
    (("203.0.113.0/24", "192.0.2.254") ∈
        ((outConfig (loadConfig sampleDoc)).Augments.Statics4.getD [] : List (String × String)) ∨
     ("203.0.113.0/24", "192.0.2.254") ∈
        ((outConfig (loadConfig sampleDoc)).Augments.Statics6.getD [])) := by
  have h := C6_statics_partition sampleDoc (by decide)
  exact ⟨h.1, (h.2.2.1 _).mpr (by decide)⟩

/-- C2 (refuting evaluation): the source's origin-prefix loop appends
the IPv4 prefix `192.0.2.0/24` to `Prefixes6` and the IPv6 prefix
`2001:db8::/32` to `Prefixes4` — the opposite of the claimed
classification. -/
theorem C2_swapped_families :
    (loadConfig sampleDoc).2 = none ∧
    (outConfig (loadConfig sampleDoc)).Prefixes4 = ["2001:db8::/32"] ∧
    (outConfig (loadConfig sampleDoc)).Prefixes6 = ["192.0.2.0/24"] ∧
    isIPv4Pfx "192.0.2.0/24" = true ∧
    isIPv4Pfx "2001:db8::/32" = false := by decide

/-- C3 (refuting evaluation): on the sample document, whose VRRP
instance has state `primary`, loading succeeds but the returned
instance still carries `primary`, not the canonical `MASTER` (the loop
canonicalizes a discarded copy); a document with an unrecognized state
does fail with an error naming the value. -/
theorem C3_vrrp_state_not_written_back :
    (loadConfig sampleDoc).2 = none ∧
    ((outConfig (loadConfig sampleDoc)).VRRPInstances.map (fun v => v.State)) = ["primary"] ∧
    (loadConfig badStateDoc).1 = none ∧
    (loadConfig badStateDoc).2 =
      some ("VRRP state must be 'primary' or 'backup', unexpected nonsense") := by decide

theorem peerFieldOk_known {k : String} {v : YVal} (h : peerFieldOk k v = true) :
    peerKeys.contains k = true := by
  unfold peerFieldOk at h
  simp only [Bool.and_eq_true] at h
  exact h.1

theorem ifaceFieldOk_known {k : String} {v : YVal} (h : ifaceFieldOk k v = true) :
    ifaceKeys.contains k = true := by
  unfold ifaceFieldOk at h
  simp only [Bool.and_eq_true] at h
  exact h.1

theorem vrrpFieldOk_known {k : String} {v : YVal} (h : vrrpFieldOk k v = true) :
    vrrpKeys.contains k = true := by
  unfold vrrpFieldOk at h
  simp only [Bool.and_eq_true] at h
  exact h.1

theorem augmentsFieldOk_known {k : String} {v : YVal} (h : augmentsFieldOk k v = true) :
    augmentsKeys.contains k = true := by
  unfold augmentsFieldOk at h
  simp only [Bool.and_eq_true] at h
  exact h.1

theorem configFieldOk_known {k : String} {v : YVal} (h : configFieldOk k v = true) :
    configKeys.contains k = true := by
  unfold configFieldOk at h
  simp only [Bool.and_eq_true] at h
  exact h.1

theorem peerObjOk_false {pl : List (String × YVal)}
    (h : objUnknown peerKeys pl = true) : peerObjOk pl = false := by
  rw [objUnknown, List.any_eq_true] at h
  obtain ⟨kv, hkv, hnk⟩ := h
  rw [Bool.eq_false_iff]
  intro hall
  rw [peerObjOk, List.all_eq_true] at hall
  have hk := peerFieldOk_known (hall kv hkv)
  simp at hnk
  exact hnk (by simpa using hk)

theorem ifaceObjOk_false {il : List (String × YVal)}
    (h : objUnknown ifaceKeys il = true) : ifaceObjOk il = false := by
  rw [objUnknown, List.any_eq_true] at h
  obtain ⟨kv, hkv, hnk⟩ := h
  rw [Bool.eq_false_iff]
  intro hall
  rw [ifaceObjOk, List.all_eq_true] at hall
  have hk := ifaceFieldOk_known (hall kv hkv)
  simp at hnk
  exact hnk (by simpa using hk)

theorem vrrpObjOk_false {il : List (String × YVal)}
    (h : objUnknown vrrpKeys il = true) : vrrpObjOk il = false := by
  rw [objUnknown, List.any_eq_true] at h
  obtain ⟨kv, hkv, hnk⟩ := h
  rw [Bool.eq_false_iff]
  intro hall
  rw [vrrpObjOk, List.all_eq_true] at hall
  have hk := vrrpFieldOk_known (hall kv hkv)
  simp at hnk
  exact hnk (by simpa using hk)

theorem augmentsObjOk_false {al : List (String × YVal)}
    (h : objUnknown augmentsKeys al = true) : augmentsObjOk al = false := by
  rw [objUnknown, List.any_eq_true] at h
  obtain ⟨kv, hkv, hnk⟩ := h
  rw [Bool.eq_false_iff]
  intro hall
  rw [augmentsObjOk, List.all_eq_true] at hall
  have hk := augmentsFieldOk_known (hall kv hkv)
  simp at hnk
  exact hnk (by simpa using hk)

theorem configFieldOk_peers (v : YVal) : configFieldOk "peers" v = peersValOk v := rfl

theorem configFieldOk_interfaces (v : YVal) :
    configFieldOk "interfaces" v = ifacesValOk v := rfl

theorem configFieldOk_vrrp (v : YVal) : configFieldOk "vrrp" v = vrrpValOk v := rfl

theorem configFieldOk_augments (v : YVal) :
    configFieldOk "augments" v = augmentsValOk v := rfl

theorem peersValOk_false {v : YVal} (h : peersValUnknown v = true) :
    peersValOk v = false := by
  cases v with
  | obj pl =>
    simp only [peersValUnknown, List.any_eq_true] at h
    obtain ⟨kv, hkv, hun⟩ := h
    rw [Bool.eq_false_iff]
    intro hall
    simp only [peersValOk, List.all_eq_true] at hall
    have h2 := hall kv hkv
    cases hv2 : kv.2 with
    | obj pl2 =>
      rw [hv2] at hun h2
      have hf := peerObjOk_false (by simpa [peerValUnknown] using hun)
      simp [hf] at h2
    | str s => rw [hv2] at hun; simp [peerValUnknown] at hun
    | num n => rw [hv2] at hun; simp [peerValUnknown] at hun
    | bool b => rw [hv2] at hun; simp [peerValUnknown] at hun
    | strList xs => rw [hv2] at hun; simp [peerValUnknown] at hun
    | strMap xs => rw [hv2] at hun; simp [peerValUnknown] at hun
    | seq xs => rw [hv2] at hun; simp [peerValUnknown] at hun
  | str s => simp [peersValUnknown] at h
  | num n => simp [peersValUnknown] at h
  | bool b => simp [peersValUnknown] at h
  | strList xs => simp [peersValUnknown] at h
  | strMap xs => simp [peersValUnknown] at h
  | seq xs => simp [peersValUnknown] at h

theorem ifacesValOk_false {v : YVal} (h : ifacesValUnknown v = true) :
    ifacesValOk v = false := by
  cases v with
  | obj il =>
    simp only [ifacesValUnknown, List.any_eq_true] at h
    obtain ⟨kv, hkv, hun⟩ := h
    rw [Bool.eq_false_iff]
    intro hall
    simp only [ifacesValOk, List.all_eq_true] at hall
    have h2 := hall kv hkv
    cases hv2 : kv.2 with
    | obj il2 =>
      rw [hv2] at hun h2
      have hf := ifaceObjOk_false (by simpa [ifaceValUnknown] using hun)
      simp [hf] at h2
    | str s => rw [hv2] at hun; simp [ifaceValUnknown] at hun
    | num n => rw [hv2] at hun; simp [ifaceValUnknown] at hun
    | bool b => rw [hv2] at hun; simp [ifaceValUnknown] at hun
    | strList xs => rw [hv2] at hun; simp [ifaceValUnknown] at hun
    | strMap xs => rw [hv2] at hun; simp [ifaceValUnknown] at hun
    | seq xs => rw [hv2] at hun; simp [ifaceValUnknown] at hun
  | str s => simp [ifacesValUnknown] at h
  | num n => simp [ifacesValUnknown] at h
  | bool b => simp [ifacesValUnknown] at h
  | strList xs => simp [ifacesValUnknown] at h
  | strMap xs => simp [ifacesValUnknown] at h
  | seq xs => simp [ifacesValUnknown] at h

theorem vrrpValOk_false {v : YVal} (h : vrrpSeqUnknown v = true) :
    vrrpValOk v = false := by
  cases v with
  | seq items =>
    simp only [vrrpSeqUnknown, List.any_eq_true] at h
    obtain ⟨it, hit, hun⟩ := h
    rw [Bool.eq_false_iff]
    intro hall
    simp only [vrrpValOk, List.all_eq_true] at hall
    have h2 := hall it hit
    cases hv2 : it with
    | obj il2 =>
      rw [hv2] at hun h2
      have hf := vrrpObjOk_false (by simpa [vrrpValUnknown] using hun)
      simp [hf] at h2
    | str s => rw [hv2] at hun; simp [vrrpValUnknown] at hun
    | num n => rw [hv2] at hun; simp [vrrpValUnknown] at hun
    | bool b => rw [hv2] at hun; simp [vrrpValUnknown] at hun
    | strList xs => rw [hv2] at hun; simp [vrrpValUnknown] at hun
    | strMap xs => rw [hv2] at hun; simp [vrrpValUnknown] at hun
    | seq xs => rw [hv2] at hun; simp [vrrpValUnknown] at hun
  | str s => simp [vrrpSeqUnknown] at h
  | num n => simp [vrrpSeqUnknown] at h
  | bool b => simp [vrrpSeqUnknown] at h
  | strList xs => simp [vrrpSeqUnknown] at h
  | strMap xs => simp [vrrpSeqUnknown] at h
  | obj l => simp [vrrpSeqUnknown] at h

theorem augmentsValOk_false {v : YVal} (h : augmentsValUnknown v = true) :
    augmentsValOk v = false := by
  cases v with
  | obj al => exact augmentsObjOk_false (by simpa [augmentsValUnknown] using h)
  | str s => simp [augmentsValUnknown] at h
  | num n => simp [augmentsValUnknown] at h
  | bool b => simp [augmentsValUnknown] at h
  | strList xs => simp [augmentsValUnknown] at h
  | strMap xs => simp [augmentsValUnknown] at h
  | seq xs => simp [augmentsValUnknown] at h

/-- A document with an unknown key anywhere fails the strict shape
check. -/
theorem docOk_false_of_unknown {l : List (String × YVal)}
    (h : docHasUnknownKey l = true) : docOk l = false := by
  rw [Bool.eq_false_iff]
  intro hall
  rw [docOk, List.all_eq_true] at hall
  rw [docHasUnknownKey] at h
  simp only [Bool.or_eq_true] at h
  rcases h with ((((hA | hB) | hC) | hD) | hE)
  · rw [objUnknown, List.any_eq_true] at hA
    obtain ⟨kv, hkv, hnk⟩ := hA
    have hk := configFieldOk_known (hall kv hkv)
    simp at hnk
    exact hnk (by simpa using hk)
  · cases hlk : listLookup l "peers" with
    | none => rw [hlk] at hB; cases hB
    | some v =>
      rw [hlk] at hB
      have hmem := listLookup_mem hlk
      have hfok := hall ("peers", v) hmem
      rw [configFieldOk_peers] at hfok
      rw [peersValOk_false hB] at hfok
      cases hfok
  · cases hlk : listLookup l "interfaces" with
    | none => rw [hlk] at hC; cases hC
    | some v =>
      rw [hlk] at hC
      have hmem := listLookup_mem hlk
      have hfok := hall ("interfaces", v) hmem
      rw [configFieldOk_interfaces] at hfok
      rw [ifacesValOk_false hC] at hfok
      cases hfok
  · cases hlk : listLookup l "vrrp" with
    | none => rw [hlk] at hD; cases hD
    | some v =>
      rw [hlk] at hD
      have hmem := listLookup_mem hlk
      have hfok := hall ("vrrp", v) hmem
      rw [configFieldOk_vrrp] at hfok
      rw [vrrpValOk_false hD] at hfok
      cases hfok
  · cases hlk : listLookup l "augments" with
    | none => rw [hlk] at hE; cases hE
    | some v =>
      rw [hlk] at hE
      have hmem := listLookup_mem hlk
      have hfok := hall ("augments", v) hmem
      rw [configFieldOk_augments] at hfok
      rw [augmentsValOk_false hE] at hfok
      cases hfok

/-- C7: a document containing a key, top-level or nested, with no
corresponding declared schema field fails to load (a parse error) and
produces no configuration object. -/
theorem C7_strict_unknown_keys (l : List (String × YVal))
    (h : docHasUnknownKey l = true) :
    (loadConfig l).1 = none ∧ ((loadConfig l).2).isSome = true := by
  have hd := docOk_false_of_unknown h
  unfold loadConfig unmarshalStrict
  simp [hd]

/-- Witness for C7: a concrete document with the unknown top-level key
`bogus` loads to no configuration and an error. -/
theorem C7_strict_unknown_keys_witness :
    (loadConfig badKeyDoc).1 = none ∧ ((loadConfig badKeyDoc).2).isSome = true :=
  C7_strict_unknown_keys badKeyDoc (by decide)

/-- C9: invoked on the root configuration entity type, the Documenter
emits rows whose first-column values are exactly the declared wire keys
of the type's fields in declaration order, and no row is emitted for a
field whose description is the sentinel `-` (here the two derived
`Prefixes4`/`Prefixes6` fields). -/
theorem C9_documenter_keys :
    rowKeys (documentRows configFields) =
      some ["asn", "prefixes", "communities", "large-communities", "router-id",
        "irr-server", "rtr-server", "rtr-port", "keep-filtered", "merge-paths",
        "source4", "source6", "accept-default", "bird-directory", "bird-socket",
        "keepalived-config", "web-ui-file", "peeringdb-query-timeout",
        "irr-query-timeout", "peers", "interfaces", "vrrp", "augments"] ∧
    documentRows configFields =
      .ok ((configFields.filter (fun f => !(f.descr == "-"))).map mkRow) := by
  constructor
  · rfl
  · rfl

/-- C4 (amended): loading leaves every explicitly set root or peer
field at its set value provided that value is not the field type's zero
value; a zero-valued field is indistinguishable from an omitted one
after deserialization and a declared default overwrites it. -/
theorem C4_amended_nonzero_preserved (c : config)
    (h : (loadConfigFromStruct c).2 = none) :
    rootNonzeroPreserved c (outConfig (loadConfigFromStruct c)) ∧
    ∀ k p, listLookup c.Peers k = some p →
      optPeerNonzeroPreserved p (listLookup ((outConfig (loadConfigFromStruct c)).Peers) k) := by
  obtain ⟨hv, hpfx, hstat, hpeers, hvr, hout⟩ := loadS_ok_out h
  rw [hout]
  have houtc : outConfig (some (finalForm c), none) = finalForm c := rfl
  rw [houtc]
  constructor
  · unfold rootNonzeroPreserved
    and_intros <;>
      first
      | rfl
      | (intro hnz; simp [finalForm, defaultedConfig, setConfigDefaults, hnz])
  · intro k p hp
    rw [finalForm_Peers, listLookup_map, defaultedConfig_Peers, listLookup_map, hp]
    have hok : peerOkB (setPeerDefaults p) = true := by
      apply hpeers (k, setPeerDefaults p)
      rw [defaultedConfig_Peers]
      exact List.mem_map.mpr ⟨(k, p), listLookup_mem hp, rfl⟩
    obtain ⟨s4, s6, hshape⟩ := processPeerD_shape (setPeerDefaults p)
    show optPeerNonzeroPreserved p (some (processPeerD (setPeerDefaults p)))
    rw [hshape]
    show peerNonzeroPreserved p
      { setPeerDefaults p with PrefixSet4 := s4, PrefixSet6 := s6 }
    unfold peerNonzeroPreserved
    and_intros <;>
      first
      | rfl
      | (intro hnz; simp [setPeerDefaults, hnz])

/-- Witness for C4 (amended): on the sample configuration the root
fields and the peer `b` are preserved as the amended claim states. -/
theorem C4_amended_nonzero_preserved_witness :
    rootNonzeroPreserved sampleConfig (outConfig (loadConfigFromStruct sampleConfig)) ∧
    optPeerNonzeroPreserved ((listLookup sampleConfig.Peers "b").getD (mkPeer []))
      (listLookup ((outConfig (loadConfigFromStruct sampleConfig)).Peers) "b") := by
  have h := C4_amended_nonzero_preserved sampleConfig (by decide)
  refine ⟨h.1, ?_⟩
  exact h.2 "b" _ (by decide)

/-- C4 (counterexample): the sample document explicitly sets the peer
`a`'s `local-pref` — whose declared default is `100` — to `0`, yet
after a successful load the field holds `100`, not the explicitly set
`0`. -/
theorem C4_zero_value_overwritten :
    (loadConfig sampleDoc).2 = none ∧
    (listLookup (asObj ((listLookup (asObj ((listLookup sampleDoc "peers").getD (.obj [])))
        "a").getD (.obj []))) "local-pref").isSome = true ∧
    getInt (asObj ((listLookup (asObj ((listLookup sampleDoc "peers").getD (.obj [])))
        "a").getD (.obj []))) "local-pref" = 0 ∧
    ((listLookup ((outConfig (loadConfig sampleDoc)).Peers) "a").map
        (fun p => p.LocalPref)) = some 100 := by decide

/-- C5: after a successful load, every field carrying a declared
default that holds its type's zero value after deserialization (an
omitted field) holds the declared default in the returned
configuration — for the root fields and for every peer in the peer
mapping, each peer being defaulted explicitly. -/
theorem C5_defaults_filled (c : config) (h : (loadConfigFromStruct c).2 = none) :
    rootDefaultsFilled c (outConfig (loadConfigFromStruct c)) ∧
    ∀ k p, listLookup c.Peers k = some p →
      optPeerDefaultsFilled p (listLookup ((outConfig (loadConfigFromStruct c)).Peers) k) := by
  obtain ⟨hv, hpfx, hstat, hpeers, hvr, hout⟩ := loadS_ok_out h
  rw [hout]
  have houtc : outConfig (some (finalForm c), none) = finalForm c := rfl
  rw [houtc]
  constructor
  · unfold rootDefaultsFilled
    and_intros <;>
      (intro hz; simp [finalForm, defaultedConfig, setConfigDefaults, hz])
  · intro k p hp
    rw [finalForm_Peers, listLookup_map, defaultedConfig_Peers, listLookup_map, hp]
    obtain ⟨s4, s6, hshape⟩ := processPeerD_shape (setPeerDefaults p)
    show optPeerDefaultsFilled p (some (processPeerD (setPeerDefaults p)))
    rw [hshape]
    show peerDefaultsFilled p
      { setPeerDefaults p with PrefixSet4 := s4, PrefixSet6 := s6 }
    unfold peerDefaultsFilled
    and_intros <;>
      (intro hz; simp [setPeerDefaults, hz])

/-- Witness for C5: the sample document omits `irr-server` and the peer
`a` omits `local-pref`-adjacent defaulted fields, and the declared
defaults appear after loading. -/
theorem C5_defaults_filled_witness :
    rootDefaultsFilled sampleConfig (outConfig (loadConfigFromStruct sampleConfig)) ∧
    optPeerDefaultsFilled ((listLookup sampleConfig.Peers "a").getD (mkPeer []))
      (listLookup ((outConfig (loadConfigFromStruct sampleConfig)).Peers) "a") := by
  have h := C5_defaults_filled sampleConfig (by decide)
  exact ⟨h.1, h.2 "a" _ (by decide)⟩

/-- Success of the post-unmarshal pipeline depends only on membership
facts of the iterated collections, not on their order. -/
theorem loadS_ok_iff (c : config) :
    (loadConfigFromStruct c).2 = none ↔
      (validateConfig c = none ∧
       (∀ s ∈ c.Prefixes, (parseCIDR s).isSome = true) ∧
       (∀ kv ∈ c.Augments.Statics, staticOk kv = true) ∧
       vrrpLoop c.VRRPInstances = none ∧
       (∀ kv ∈ c.Peers, peerOkB (setPeerDefaults kv.2) = true)) := by
  constructor
  · intro h
    obtain ⟨hv, hpfx, hstat, hpeers, hvr, hout⟩ := loadS_ok_out h
    refine ⟨hv, hpfx, hstat, hvr, ?_⟩
    intro kv hkv
    apply hpeers (kv.1, setPeerDefaults kv.2)
    rw [defaultedConfig_Peers]
    exact List.mem_map.mpr ⟨kv, hkv, rfl⟩
  · rintro ⟨hv, hpfx, hstat, hvr, hpeers⟩
    have hpeers' : ∀ kv ∈ (defaultedConfig c).Peers, peerOkB kv.2 = true := by
      intro kv hkv
      rw [defaultedConfig_Peers] at hkv
      obtain ⟨kv1, hkv1, rfl⟩ := List.mem_map.mp hkv
      exact hpeers kv1 hkv1
    have hp' := cidrPart_ok_of_all "invalid origin prefix: "
      (defaultedConfig c).Prefixes (defaultedConfig c).Prefixes4
      (defaultedConfig c).Prefixes6 (by rwa [defaultedConfig_Prefixes])
    have hs' := staticsLoop_ok_of_all (defaultedConfig c).Augments.Statics [] []
      (by rwa [defaultedConfig_Augments])
    have hl' := peersLoop_ok_of_all (defaultedConfig c).Peers [] hpeers'
    have hvr' : vrrpLoop (defaultedConfig c).VRRPInstances = none := by
      rwa [defaultedConfig_VRRP]
    simp only [loadConfigFromStruct, hv, hp', hs', hvr', hl']

/-- C10: two runs of the pipeline on the same deserialized document —
whose unordered Go maps (peers, interfaces, statics) may be iterated in
any order, modelled as permuted association lists — agree on whether
loading succeeds, and on success return structurally equal
configurations: identical derived lists and identical map entries. -/
theorem C10_two_run_deterministic (c : config) (ps : List (String × peer))
    (ifs : List (String × iface)) (ss : List (String × String))
    (hp : c.Peers.Perm ps) (hi : c.Interfaces.Perm ifs)
    (hs : c.Augments.Statics.Perm ss) :
    ((loadConfigFromStruct c).2 = none ↔
      (loadConfigFromStruct (reorderedConfig c ps ifs ss)).2 = none) ∧
    ((loadConfigFromStruct c).2 = none →
      configEquiv (outConfig (loadConfigFromStruct c))
        (outConfig (loadConfigFromStruct (reorderedConfig c ps ifs ss)))) := by
  have hvv : validateConfig (reorderedConfig c ps ifs ss) = validateConfig c := rfl
  have hpp : (reorderedConfig c ps ifs ss).Prefixes = c.Prefixes := rfl
  have hss : (reorderedConfig c ps ifs ss).Augments.Statics = ss := rfl
  have hvr : (reorderedConfig c ps ifs ss).VRRPInstances = c.VRRPInstances := rfl
  have hps : (reorderedConfig c ps ifs ss).Peers = ps := rfl
  have hiff : ((loadConfigFromStruct c).2 = none ↔
      (loadConfigFromStruct (reorderedConfig c ps ifs ss)).2 = none) := by
    rw [loadS_ok_iff, loadS_ok_iff, hvv, hpp, hss, hvr, hps]
    constructor
    · rintro ⟨h1, h2, h3, h4, h5⟩
      exact ⟨h1, h2, fun kv hkv => h3 kv (hs.mem_iff.mpr hkv), h4,
        fun kv hkv => h5 kv (hp.mem_iff.mpr hkv)⟩
    · rintro ⟨h1, h2, h3, h4, h5⟩
      exact ⟨h1, h2, fun kv hkv => h3 kv (hs.mem_iff.mp hkv), h4,
        fun kv hkv => h5 kv (hp.mem_iff.mp hkv)⟩
  refine ⟨hiff, ?_⟩
  intro h
  have h' := hiff.mp h
  obtain ⟨_, _, _, _, _, hout1⟩ := loadS_ok_out h
  obtain ⟨_, _, _, _, _, hout2⟩ := loadS_ok_out h'
  rw [hout1, hout2]
  show configEquiv (finalForm c) (finalForm (reorderedConfig c ps ifs ss))
  unfold configEquiv
  and_intros
  · rfl
  · rfl
  · rfl
  · rfl
  · rfl
  · rfl
  · rfl
  · rfl
  · rfl
  · rfl
  · rfl
  · rfl
  · rfl
  · rfl
  · rfl
  · rfl
  · rfl
  · rfl
  · rfl
  · rw [finalForm_Peers, finalForm_Peers, defaultedConfig_Peers, defaultedConfig_Peers,
      List.map_map, List.map_map, hps]
    exact hp.map _
  · exact hi
  · rfl
  · rfl
  · rfl
  · rfl
  · rfl
  · rfl
  · rfl
  · exact hs
  · exact hs.filter _
  · exact hs.filter _

/-- Witness for C10: the sample configuration and the same
configuration with all three maps iterated in reverse order load
equivalently. -/
theorem C10_two_run_deterministic_witness :
    ((loadConfigFromStruct sampleConfig).2 = none ↔
      (loadConfigFromStruct (reorderedConfig sampleConfig sampleConfig.Peers.reverse
        sampleConfig.Interfaces.reverse sampleConfig.Augments.Statics.reverse)).2 = none) ∧
    configEquiv (outConfig (loadConfigFromStruct sampleConfig))
      (outConfig (loadConfigFromStruct (reorderedConfig sampleConfig
        sampleConfig.Peers.reverse sampleConfig.Interfaces.reverse
        sampleConfig.Augments.Statics.reverse))) := by
  have h := C10_two_run_deterministic sampleConfig sampleConfig.Peers.reverse
    sampleConfig.Interfaces.reverse sampleConfig.Augments.Statics.reverse
    (List.reverse_perm _).symm (List.reverse_perm _).symm (List.reverse_perm _).symm
  exact ⟨h.1, h.2 (by decide)⟩
